import Mathlib

/-!
# llm_router: provider registry, adapters and streaming bridges

A shallow embedding of the Go packages `internal/providers`, `internal/services`,
`internal/handlers` and `internal/models`, followed by theorems about them.

Conventions of the embedding

* Go `string` values are Lean `String`s (sequences of Unicode code points; the
  request strings come out of the JSON decoder, which only yields valid UTF-8).
* A Go `map[string]V` that is only read with `m[k]` and written with `m[k] = v`
  is a lookup function `String → Option V`.
* A Go `error` is a value of `GoError`, which records how the error was built
  (`fmt.Errorf` with or without `%w`, a vendor SDK error, `ctx.Err()`).
* Calls that leave the process (vendor SDK calls) and calls through an interface
  value (adapter methods, service methods) are recorded in explicit call logs
  that the embedded functions return next to their result.
* Goroutines and channels are explicit state machines: a channel is a bounded
  buffer, a blocking send on a full channel leaves the goroutine blocked.
-/

namespace LLMRouter

/-! ## Strings (`strings`, `unicode`) -/

/-- Go `unicode.ToLower`: the ASCII range is handled inline (`'A'..'Z'` are shifted
by `'a' - 'A'`, every other ASCII rune is returned unchanged); every other rune is
looked up in the Unicode case tables, which are the parameter `caseTable`. -/
def unicodeToLower (caseTable : Char → Char) (r : Char) : Char :=
  if r.toNat ≤ 127 then
    if 65 ≤ r.toNat ∧ r.toNat ≤ 90 then Char.ofNat (r.toNat + 32) else r
  else caseTable r

/-- Go `strings.ToLower`: `strings.Map(unicode.ToLower, s)` (the ASCII fast path of
the library computes the same string). -/
def ToLower (caseTable : Char → Char) (s : String) : String :=
  ⟨s.data.map (unicodeToLower caseTable)⟩

/-- Go `strings.HasPrefix(s, p)`: `len(s) >= len(p) && s[:len(p)] == p`. On valid
UTF-8 strings the byte-wise test coincides with the test on code points. -/
def HasPrefix (s p : String) : Bool :=
  p.data.isPrefixOf s.data

/-! ## Maps -/

/-- A Go `map[string]V`, seen through its lookups. -/
abbrev GoMap (V : Type) := String → Option V

/-- The map `make(map[string]V)`. -/
def GoMap.empty {V : Type} : GoMap V := fun _ => none

/-- The assignment `m[k] = v`. -/
def GoMap.set {V : Type} (m : GoMap V) (k : String) (v : V) : GoMap V :=
  fun k' => if k' = k then some v else m k'

/-! ## Errors -/

/-- Go `error` values built by this program. -/
inductive GoError where
  /-- An error made by `fmt.Errorf` without `%w`, with its full text. -/
  | errorf (text : String)
  /-- An error made by `fmt.Errorf(head + "%w", cause)`. -/
  | wrapf (head : String) (cause : GoError)
  /-- An error value returned by a vendor SDK, with its text. -/
  | sdk (text : String)
  /-- The value of `ctx.Err()` once the context is done (`context.Canceled`, or
  `context.DeadlineExceeded` after a timeout; the two are not told apart). -/
  | ctxErr
  deriving DecidableEq, Repr

/-- The method `Error()` of an error value. -/
def GoError.Error : GoError → String
  | .errorf text => text
  | .wrapf head cause => head ++ cause.Error
  | .sdk text => text
  | .ctxErr => "context canceled"

/-! ## Provider registry (`internal/providers/factory.go`) -/

/-- The two implementations of the interface `Provider`; each holds the SDK client
made from its API key. -/
inductive Provider where
  | OpenAIProvider (apiKey : String)
  | anthropicProvider (apiKey : String)
  deriving DecidableEq, Repr

/-- `NewOpenAIProvider`. -/
def NewOpenAIProvider (apiKey : String) : Provider := .OpenAIProvider apiKey

/-- `NewAntropicProvider`. -/
def NewAntropicProvider (apiKey : String) : Provider := .anthropicProvider apiKey

/-- `ProviderFactory`. -/
structure ProviderFactory where
  providers : GoMap Provider

/-- `NewProviderFactory`. -/
def NewProviderFactory (apiKeys : GoMap String) : ProviderFactory :=
  let providers : GoMap Provider := GoMap.empty
  let providers :=
    match apiKeys "openai" with
    | some apiKey => providers.set "openai" (NewOpenAIProvider apiKey)
    | none => providers
  let providers :=
    match apiKeys "anthropic" with
    | some apiKey => providers.set "anthropic" (NewAntropicProvider apiKey)
    | none => providers
  { providers := providers }

/-- `ProviderFactory.getProviderTypeFromModel`. -/
def getProviderTypeFromModel (caseTable : Char → Char) (model : String) : String :=
  let modelLower := ToLower caseTable model
  if HasPrefix modelLower "gpt" then "openai"
  else if HasPrefix modelLower "claude" then "anthropic"
  else "openai"

/-- `ProviderFactory.GetProvider`. -/
def ProviderFactory.GetProvider (caseTable : Char → Char) (f : ProviderFactory)
    (model : String) : Except GoError Provider :=
  let providerType := getProviderTypeFromModel caseTable model
  match f.providers providerType with
  | none => .error (.errorf ("provider not found for model: " ++ model))
  | some provider => .ok provider

/-- `config.loadAPIKeys` when neither environment variable is set: both providers
get the default credential. -/
def defaultAPIKeys : GoMap String :=
  (GoMap.empty.set "openai" "abc").set "anthropic" "abc"

/-- A credential map with only the key `anthropic`. -/
def anthropicOnlyKeys : GoMap String :=
  GoMap.empty.set "anthropic" "sk-ant"

/-! ## Canonical data model (`internal/models`) -/

/-- A Go `float64`, kept as its IEEE-754 bit pattern: the program only stores and
forwards such values. -/
structure Float64 where
  bits : Nat
  deriving DecidableEq, Repr

/-- A Go `float32`, kept as its bit pattern. -/
structure Float32 where
  bits : Nat
  deriving DecidableEq, Repr

/-- `models.openAIMessage`. -/
structure openAIMessage where
  Role : String
  Content : String
  Name : String
  deriving DecidableEq, Repr

/-- `models.ChatCompletionRequest`; a nil pointer field is `none`. -/
structure ChatCompletionRequest where
  Model : String
  Messages : List openAIMessage
  MaxTokens : Option Int
  Temperature : Option Float64
  TopP : Option Float64
  Stop : List String
  Stream : Bool
  User : String
  deriving DecidableEq, Repr

/-- `models.ChatMessage`. -/
structure ChatMessage where
  Role : String
  Content : String
  deriving DecidableEq, Repr

/-- `models.ChatCompletionChoice`. -/
structure ChatCompletionChoice where
  Index : Int
  Message : ChatMessage
  FinishReason : String
  deriving DecidableEq, Repr

/-- `models.ChatCompletionChunkChoice`; `FinishReason` is a `*string`. -/
structure ChatCompletionChunkChoice where
  Index : Int
  Delta : ChatMessage
  FinishReason : Option String
  deriving DecidableEq, Repr

/-- `models.Usage` (three `int64` fields). -/
structure Usage where
  PromptTokens : Int
  CompletionTokens : Int
  TotalTokens : Int
  deriving DecidableEq, Repr

/-- The anonymous struct behind `ChatCompletionResponse.Error` (its field `Type` is
`Type_` here, the word being reserved). -/
structure ErrorInfo where
  Message : String
  Type_ : String
  Code : String
  deriving DecidableEq, Repr

/-- `models.ChatCompletionResponse`. -/
structure ChatCompletionResponse where
  ID : String
  Object : String
  Created : Int
  Model : String
  Choices : List ChatCompletionChoice
  Usage : Usage
  Error : Option ErrorInfo
  deriving DecidableEq, Repr

/-- `models.ChatCompletionChunk`. -/
structure ChatCompletionChunk where
  ID : String
  Object : String
  Created : Int
  Model : String
  Choices : List ChatCompletionChunkChoice
  deriving DecidableEq, Repr

/-- The value of an `int64` expression whose mathematical value is `x`: Go integer
arithmetic wraps around modulo `2^64`. -/
def wrapInt64 (x : Int) : Int :=
  (x + 2 ^ 63) % 2 ^ 64 - 2 ^ 63

/-! ## Vendor SDK types, as far as the adapters read or build them -/

namespace openai

/-- The message parameters made by `openai.UserMessage`, `openai.AssistantMessage`
and `openai.SystemMessage`. -/
inductive ChatCompletionMessageParamUnion where
  | UserMessage (content : String)
  | AssistantMessage (content : String)
  | SystemMessage (content : String)
  deriving DecidableEq, Repr

/-- `openai.ChatCompletionNewParams`: the fields the adapter sets; an optional field
that is not set is `none`. -/
structure ChatCompletionNewParams where
  Messages : List ChatCompletionMessageParamUnion
  Model : String
  Temperature : Option Float64
  TopP : Option Float64
  MaxTokens : Option Int
  deriving DecidableEq, Repr

/-- `openai.ChatCompletionMessage`: the fields read. -/
structure ChatCompletionMessage where
  Role : String
  Content : String
  deriving DecidableEq, Repr

/-- `openai.ChatCompletionChoice`: the fields read. -/
structure ChatCompletionChoice where
  Message : ChatCompletionMessage
  FinishReason : String
  deriving DecidableEq, Repr

/-- `openai.CompletionUsage`: the fields read (`int64`). -/
structure CompletionUsage where
  PromptTokens : Int
  CompletionTokens : Int
  TotalTokens : Int
  deriving DecidableEq, Repr

/-- `openai.ChatCompletion`: the fields read. -/
structure ChatCompletion where
  ID : String
  Object : String
  Created : Int
  Model : String
  Choices : List ChatCompletionChoice
  Usage : CompletionUsage
  deriving DecidableEq, Repr

/-- `openai.ChatCompletionChunkChoice`: the fields read. -/
structure ChatCompletionChunkChoice where
  Index : Int
  Delta : ChatCompletionMessage
  FinishReason : String
  deriving DecidableEq, Repr

/-- `openai.ChatCompletionChunk`: the fields read. -/
structure ChatCompletionChunk where
  ID : String
  Object : String
  Created : Int
  Model : String
  Choices : List ChatCompletionChunkChoice
  deriving DecidableEq, Repr

end openai

namespace anthropic

/-- The messages made by `anthropic.NewUserTextMessage` and
`anthropic.NewAssistantTextMessage`. -/
inductive Message where
  | NewUserTextMessage (text : String)
  | NewAssistantTextMessage (text : String)
  deriving DecidableEq, Repr

/-- `anthropic.MessagesRequest`: the fields the adapter sets. -/
structure MessagesRequest where
  Model : String
  Messages : List Message
  MaxTokens : Int
  System : String
  StopSequences : List String
  Stream : Bool
  Temperature : Option Float32
  TopP : Option Float32
  deriving DecidableEq, Repr

/-- `anthropic.MessageContent`: the field read, a `*string`. -/
structure MessageContent where
  Text : Option String
  deriving DecidableEq, Repr

/-- `anthropic.MessagesUsage`: the fields read (`int`). -/
structure MessagesUsage where
  InputTokens : Int
  OutputTokens : Int
  deriving DecidableEq, Repr

/-- `anthropic.MessagesResponse`: the fields read. -/
structure MessagesResponse where
  ID : String
  Role : String
  Model : String
  Content : List MessageContent
  StopReason : String
  Usage : MessagesUsage
  deriving DecidableEq, Repr

end anthropic

/-! ## Blocking adapter calls (`internal/providers/openai.go`, `anthrophic.go`) -/

/-- A call into a vendor SDK, with the client's API key and the native request. -/
inductive SdkCall where
  | openaiNew (apiKey : String) (params : openai.ChatCompletionNewParams)
  | openaiNewStreaming (apiKey : String) (params : openai.ChatCompletionNewParams)
  | anthropicCreateMessages (apiKey : String) (req : anthropic.MessagesRequest)
  | anthropicCreateMessagesStream (apiKey : String) (req : anthropic.MessagesRequest)
  deriving DecidableEq, Repr

/-- What lies outside the process during one blocking call: the answers of the two
vendor SDKs, the reading of `time.Now().Unix()`, and the conversion `float32(x)`. -/
structure Upstream where
  openaiNew : String → openai.ChatCompletionNewParams → Except GoError openai.ChatCompletion
  anthropicCreateMessages :
    String → anthropic.MessagesRequest → Except GoError anthropic.MessagesResponse
  now : Int
  float32 : Float64 → Float32

/-- A result together with the SDK calls issued while computing it, oldest first. -/
structure Traced (α : Type) where
  sdkCalls : List SdkCall
  value : α

/-- The role loop of `OpenAIProvider.ChatCompletion` and of
`OpenAIProvider.ChatCompletionStream` (`for i, msg := range req.Messages` with its
`switch msg.Role`); `messages` holds the entries filled so far. The two methods
differ only in the head of the error text, `errHead`. -/
def OpenAIProvider.messagesLoop (errHead : String)
    (messages : List openai.ChatCompletionMessageParamUnion) :
    List openAIMessage → Except GoError (List openai.ChatCompletionMessageParamUnion)
  | [] => .ok messages
  | msg :: rest =>
    if msg.Role = "user" then
      OpenAIProvider.messagesLoop errHead (messages ++ [.UserMessage msg.Content]) rest
    else if msg.Role = "assistant" then
      OpenAIProvider.messagesLoop errHead (messages ++ [.AssistantMessage msg.Content]) rest
    else if msg.Role = "system" then
      OpenAIProvider.messagesLoop errHead (messages ++ [.SystemMessage msg.Content]) rest
    else
      .error (.errorf (errHead ++ msg.Role))

/-- The part of `OpenAIProvider.ChatCompletion` after a successful SDK call. -/
def OpenAIProvider.toResponse (chatCompletion : openai.ChatCompletion) :
    ChatCompletionResponse :=
  let choices : List ChatCompletionChoice := chatCompletion.Choices.map fun choice =>
    { Index := 0
      Message := { Role := choice.Message.Role, Content := choice.Message.Content }
      FinishReason := choice.FinishReason }
  { ID := chatCompletion.ID
    Object := chatCompletion.Object
    Created := chatCompletion.Created
    Model := chatCompletion.Model
    Choices := choices
    Usage :=
      { PromptTokens := chatCompletion.Usage.PromptTokens
        CompletionTokens := chatCompletion.Usage.CompletionTokens
        TotalTokens := chatCompletion.Usage.TotalTokens }
    Error := none }

/-- `OpenAIProvider.ChatCompletion`. -/
def OpenAIProvider.ChatCompletion (up : Upstream) (apiKey : String)
    (req : ChatCompletionRequest) : Traced (Except GoError ChatCompletionResponse) :=
  match OpenAIProvider.messagesLoop "unsupported message role: " [] req.Messages with
  | .error err => ⟨[], .error err⟩
  | .ok messages =>
    let params : openai.ChatCompletionNewParams :=
      { Messages := messages, Model := req.Model
        Temperature := none, TopP := none, MaxTokens := none }
    match up.openaiNew apiKey params with
    | .error err =>
      ⟨[.openaiNew apiKey params], .error (.wrapf "failed to get chat completion: " err)⟩
    | .ok chatCompletion =>
      ⟨[.openaiNew apiKey params], .ok (OpenAIProvider.toResponse chatCompletion)⟩

/-- The role loop of `anthropicProvider.ChatCompletion` and of
`anthropicProvider.ChatCompletionStream`, on the variables `anthropicMessages` and
`systemMessage`. -/
def anthropicProvider.messagesLoop (anthropicMessages : List anthropic.Message)
    (systemMessage : String) :
    List openAIMessage → Except GoError (List anthropic.Message × String)
  | [] => .ok (anthropicMessages, systemMessage)
  | msg :: rest =>
    if msg.Role = "user" then
      anthropicProvider.messagesLoop
        (anthropicMessages ++ [.NewUserTextMessage msg.Content]) systemMessage rest
    else if msg.Role = "assistant" then
      anthropicProvider.messagesLoop
        (anthropicMessages ++ [.NewAssistantTextMessage msg.Content]) systemMessage rest
    else if msg.Role = "system" then
      anthropicProvider.messagesLoop anthropicMessages msg.Content rest
    else
      .error (.errorf ("unsupported message role: " ++ msg.Role))

/-- The native request both Anthropic methods build once the role loop is through
(`stream` is the field `Stream`, left `false` by the blocking method). -/
def anthropicProvider.messagesRequest (float32 : Float64 → Float32)
    (req : ChatCompletionRequest) (anthropicMessages : List anthropic.Message)
    (systemMessage : String) (stream : Bool) : anthropic.MessagesRequest :=
  let maxTokens : Int :=
    match req.MaxTokens with
    | some n => n
    | none => 1024
  { Model := req.Model
    Messages := anthropicMessages
    MaxTokens := maxTokens
    System := systemMessage
    StopSequences := req.Stop
    Stream := stream
    Temperature := req.Temperature.map float32
    TopP := req.TopP.map float32 }

/-- The part of `anthropicProvider.ChatCompletion` after a successful SDK call;
`now` is the reading of `time.Now().Unix()`. -/
def anthropicProvider.toResponse (now : Int) (anthropicResp : anthropic.MessagesResponse) :
    ChatCompletionResponse :=
  let responseText : String :=
    match anthropicResp.Content with
    | [] => ""
    | first :: _ =>
      match first.Text with
      | some text => text
      | none => ""
  { ID := anthropicResp.ID
    Object := "chat.completion"
    Created := now
    Model := anthropicResp.Model
    Choices :=
      [{ Index := 0
         Message := { Role := anthropicResp.Role, Content := responseText }
         FinishReason :=
           if anthropicResp.StopReason ≠ "" then anthropicResp.StopReason else "stop" }]
    Usage :=
      { PromptTokens := anthropicResp.Usage.InputTokens
        CompletionTokens := anthropicResp.Usage.OutputTokens
        TotalTokens :=
          wrapInt64 (anthropicResp.Usage.InputTokens + anthropicResp.Usage.OutputTokens) }
    Error := none }

/-- `anthropicProvider.ChatCompletion`. -/
def anthropicProvider.ChatCompletion (up : Upstream) (apiKey : String)
    (req : ChatCompletionRequest) : Traced (Except GoError ChatCompletionResponse) :=
  match anthropicProvider.messagesLoop [] "" req.Messages with
  | .error err => ⟨[], .error err⟩
  | .ok (anthropicMessages, systemMessage) =>
    let messagesRequest :=
      anthropicProvider.messagesRequest up.float32 req anthropicMessages systemMessage false
    match up.anthropicCreateMessages apiKey messagesRequest with
    | .error err => ⟨[.anthropicCreateMessages apiKey messagesRequest], .error err⟩
    | .ok anthropicResp =>
      ⟨[.anthropicCreateMessages apiKey messagesRequest],
        .ok (anthropicProvider.toResponse up.now anthropicResp)⟩

/-- The method `ChatCompletion` of the interface `Provider` (dynamic dispatch). -/
def Provider.ChatCompletion (up : Upstream) :
    Provider → ChatCompletionRequest → Traced (Except GoError ChatCompletionResponse)
  | .OpenAIProvider apiKey, req => OpenAIProvider.ChatCompletion up apiKey req
  | .anthropicProvider apiKey, req => anthropicProvider.ChatCompletion up apiKey req

/-- A role the adapters accept. -/
def supportedRole (role : String) : Bool :=
  role = "user" || role = "assistant" || role = "system"

/-! ## Orchestration service (`internal/services/llm_service.go`) -/

/-- An invocation of a method of a provider adapter. -/
inductive AdapterCall where
  | ChatCompletion (provider : Provider) (req : ChatCompletionRequest)
  | ChatCompletionStream (provider : Provider) (req : ChatCompletionRequest)
  deriving DecidableEq, Repr

/-- The outcome of a service method: the adapter methods it invoked (what a spy
provider records), the SDK calls issued below them, and what it returned. -/
structure ServiceRun (α : Type) where
  adapterCalls : List AdapterCall
  sdkCalls : List SdkCall
  result : α

/-- `LLMServiceImpl.ChatCompletion`. -/
def LLMServiceImpl.ChatCompletion (caseTable : Char → Char) (up : Upstream)
    (providerFactory : ProviderFactory) (req : ChatCompletionRequest) :
    ServiceRun (Except GoError ChatCompletionResponse) :=
  match providerFactory.GetProvider caseTable req.Model with
  | .error err =>
    { adapterCalls := [], sdkCalls := []
      result := .error (.wrapf ("provider not found for model " ++ req.Model ++ ": ") err) }
  | .ok provider =>
    let r := provider.ChatCompletion up req
    match r.value with
    | .error err =>
      { adapterCalls := [.ChatCompletion provider req], sdkCalls := r.sdkCalls
        result := .error (.wrapf "LLM service error: " err) }
    | .ok response =>
      { adapterCalls := [.ChatCompletion provider req], sdkCalls := r.sdkCalls
        result := .ok response }

/-- The pair of channels returned by `LLMServiceImpl.ChatCompletionStream`. -/
inductive ServiceStream where
  /-- A nil chunk channel, and a closed error channel holding `errCh`. -/
  | failed (errCh : List GoError)
  /-- The two channels returned by `provider.ChatCompletionStream(ctx, req)`. -/
  | delegated (provider : Provider) (req : ChatCompletionRequest)
  deriving DecidableEq, Repr

/-- `LLMServiceImpl.ChatCompletionStream`, up to the return of the channel pair (the
SDK calls of a stream are issued later, by the adapter's producer). -/
def LLMServiceImpl.ChatCompletionStream (caseTable : Char → Char)
    (providerFactory : ProviderFactory) (req : ChatCompletionRequest) :
    ServiceRun ServiceStream :=
  match providerFactory.GetProvider caseTable req.Model with
  | .error err =>
    { adapterCalls := [], sdkCalls := []
      result :=
        .failed [.wrapf ("provider not found for model " ++ req.Model ++ ": ") err] }
  | .ok provider =>
    { adapterCalls := [.ChatCompletionStream provider req], sdkCalls := []
      result := .delegated provider req }

/-! ## HTTP handler (`internal/handlers/llm_handler.go`) -/

/-- `validateChatCompletionRequest`; `none` is the nil error. -/
def validateChatCompletionRequest (req : ChatCompletionRequest) : Option GoError :=
  if req.Model = "" then some (.errorf "model is required")
  else if req.Messages.length = 0 then some (.errorf "messages cannot be empty")
  else none

/-- An invocation of a method of the interface `services.LLMService`. -/
inductive ServiceCall where
  | ChatCompletion (req : ChatCompletionRequest)
  | ChatCompletionStream (req : ChatCompletionRequest)
  deriving DecidableEq, Repr

/-- What the handler writes to the client. -/
inductive HandlerResponse where
  /-- The result of `c.JSON(status, gin.H{"error": message})`. -/
  | errorJSON (status : Nat) (message : String)
  /-- The result of `c.JSON(status, response)`. -/
  | responseJSON (status : Nat) (response : ChatCompletionResponse)
  /-- A `text/event-stream` body fed from the channel pair of the service (the
  framing loop of `handleStreamChatCompletion` is not modelled further). -/
  | eventStream
  deriving DecidableEq, Repr

/-- The outcome of the handler: the service methods it invoked and its response. -/
structure HandlerRun where
  serviceCalls : List ServiceCall
  response : HandlerResponse
  deriving DecidableEq, Repr

/-- `LLMHandler.handleNormalChatCompletion`; `llmService` is the blocking method of
the handler's service. -/
def handleNormalChatCompletion
    (llmService : ChatCompletionRequest → Except GoError ChatCompletionResponse)
    (req : ChatCompletionRequest) : HandlerRun :=
  match llmService req with
  | .error _ =>
    { serviceCalls := [.ChatCompletion req]
      response := .errorJSON 500 "Failed to process chat completion" }
  | .ok response =>
    { serviceCalls := [.ChatCompletion req], response := .responseJSON 200 response }

/-- `LLMHandler.handleStreamChatCompletion`, up to the start of the event stream. -/
def handleStreamChatCompletion (req : ChatCompletionRequest) : HandlerRun :=
  { serviceCalls := [.ChatCompletionStream req], response := .eventStream }

/-- `LLMHandler.HandleChatCompletion`; `bound` is the outcome of
`c.ShouldBindJSON(&req)`. -/
def HandleChatCompletion
    (llmService : ChatCompletionRequest → Except GoError ChatCompletionResponse)
    (bound : Except GoError ChatCompletionRequest) : HandlerRun :=
  match bound with
  | .error _ => { serviceCalls := [], response := .errorJSON 400 "Invalid request format" }
  | .ok req =>
    match validateChatCompletionRequest req with
    | some err =>
      { serviceCalls := [], response := .errorJSON 400 ("Invalid request: " ++ err.Error) }
    | none =>
      if req.Stream then handleStreamChatCompletion req
      else handleNormalChatCompletion llmService req

/-! ## Channels -/

/-- A Go channel made by `make(chan T, cap)`: its buffer, oldest element first. -/
structure Chan (α : Type) where
  cap : Nat
  buf : List α
  closed : Bool
  deriving DecidableEq, Repr

/-- The channel `make(chan T, cap)`. -/
def Chan.make {α : Type} (cap : Nat) : Chan α :=
  { cap := cap, buf := [], closed := false }

/-- A send `ch <- v` that is not met by a waiting receiver: it proceeds when the
buffer has room, and otherwise cannot proceed (`none`). -/
def Chan.trySend {α : Type} (ch : Chan α) (v : α) : Option (Chan α) :=
  if ch.buf.length < ch.cap then some { ch with buf := ch.buf ++ [v] } else none

/-- The call `close(ch)`. -/
def Chan.close {α : Type} (ch : Chan α) : Chan α :=
  { ch with closed := true }

/-! ## OpenAI streaming producer (`OpenAIProvider.ChatCompletionStream`) -/

/-- The canonical chunk built from one upstream chunk in the producer loop. -/
def OpenAIProvider.toChunk (resp : openai.ChatCompletionChunk) : ChatCompletionChunk :=
  let choices : List ChatCompletionChunkChoice := resp.Choices.map fun c =>
    { Index := c.Index
      Delta := { Role := c.Delta.Role, Content := c.Delta.Content }
      FinishReason := if c.FinishReason ≠ "" then some c.FinishReason else none }
  { ID := resp.ID
    Object := resp.Object
    Created := resp.Created
    Model := resp.Model
    Choices := choices }

/-- The native request built by the streaming method once the role loop is through. -/
def OpenAIProvider.streamParams (req : ChatCompletionRequest)
    (messages : List openai.ChatCompletionMessageParamUnion) :
    openai.ChatCompletionNewParams :=
  { Model := req.Model
    Messages := messages
    Temperature := req.Temperature
    TopP := req.TopP
    MaxTokens := req.MaxTokens }

/-- Where the producer goroutine stands. -/
inductive ProducerPc where
  /-- Started, nothing executed yet. -/
  | start
  /-- At the loop condition `stream.Next()`. -/
  | next
  /-- At the first `select` (cancellation check with `default`), holding the chunk
  just pulled. -/
  | check (resp : openai.ChatCompletionChunk)
  /-- At the second `select` (cancellation or delivery of `chunk`). -/
  | deliver (chunk : ChatCompletionChunk)
  /-- After the loop, at `stream.Err()`. -/
  | afterLoop
  /-- Blocked for good in a send `errCh <- err` on a full error channel. -/
  | blockedOnErrCh (err : GoError)
  /-- Returned; the deferred closes have run. -/
  | exited
  deriving DecidableEq, Repr

/-- The state of one streaming call to the OpenAI adapter. -/
structure OpenAIStream where
  /-- The client's API key and the request captured by the goroutine. -/
  apiKey : String
  req : ChatCompletionRequest
  pc : ProducerPc
  /-- The upstream chunks `stream.Next()` has not yielded yet. -/
  upstream : List openai.ChatCompletionChunk
  /-- The value of `stream.Err()` once the upstream is exhausted. -/
  upstreamErr : Option GoError
  /-- Whether the caller's context is done. -/
  cancelled : Bool
  chunkCh : Chan ChatCompletionChunk
  errCh : Chan GoError
  /-- Every chunk sent on `chunkCh` so far, oldest first. -/
  chunksSent : List ChatCompletionChunk
  /-- How often `stream.Next()` has yielded a chunk. -/
  pulls : Nat
  sdkCalls : List SdkCall
  deriving DecidableEq, Repr

/-- `OpenAIProvider.ChatCompletionStream` at its return: both channels made, the
goroutine started; `upstream` and `upstreamErr` are what the SDK stream will give. -/
def OpenAIProvider.ChatCompletionStream (apiKey : String) (req : ChatCompletionRequest)
    (upstream : List openai.ChatCompletionChunk) (upstreamErr : Option GoError) :
    OpenAIStream :=
  { apiKey := apiKey, req := req, pc := .start
    upstream := upstream, upstreamErr := upstreamErr
    cancelled := false
    chunkCh := Chan.make 2, errCh := Chan.make 1
    chunksSent := [], pulls := 0, sdkCalls := [] }

/-- The return of the goroutine: `defer close(errCh)` and `defer close(chunkCh)`. -/
def OpenAIStream.exit (s : OpenAIStream) : OpenAIStream :=
  { s with pc := .exited, errCh := s.errCh.close, chunkCh := s.chunkCh.close }

/-- The statement pair `errCh <- err; return` (after the loop the function ends
right after the send). Nobody receives from `errCh`, so the send proceeds only when
the buffer has room. -/
def OpenAIStream.sendErr (s : OpenAIStream) (err : GoError) : OpenAIStream :=
  match s.errCh.trySend err with
  | some ch => ({ s with errCh := ch }).exit
  | none => { s with pc := .blockedOnErrCh err }

/-- One move of the producer goroutine, or `none` when it cannot move. When both
cases of the second `select` are ready, Go picks either; `pickDone` is that pick. -/
def OpenAIStream.produce (pickDone : Bool) (s : OpenAIStream) : Option OpenAIStream :=
  match s.pc with
  | .start =>
    match OpenAIProvider.messagesLoop "unsupported role: " [] s.req.Messages with
    | .error err => some (s.sendErr err)
    | .ok messages =>
      some { s with
        pc := .next
        sdkCalls := s.sdkCalls ++
          [.openaiNewStreaming s.apiKey (OpenAIProvider.streamParams s.req messages)] }
  | .next =>
    match s.upstream with
    | resp :: rest => some { s with pc := .check resp, upstream := rest, pulls := s.pulls + 1 }
    | [] => some { s with pc := .afterLoop }
  | .check resp =>
    if s.cancelled then some (s.sendErr .ctxErr)
    else some { s with pc := .deliver (OpenAIProvider.toChunk resp) }
  | .deliver chunk =>
    match s.cancelled, s.chunkCh.trySend chunk with
    | true, some ch =>
      if pickDone then some (s.sendErr .ctxErr)
      else some { s with pc := .next, chunkCh := ch, chunksSent := s.chunksSent ++ [chunk] }
    | true, none => some (s.sendErr .ctxErr)
    | false, some ch =>
      some { s with pc := .next, chunkCh := ch, chunksSent := s.chunksSent ++ [chunk] }
    | false, none => none
  | .afterLoop =>
    match s.upstreamErr with
    | some err => some (s.sendErr (.wrapf "stream iteration error: " err))
    | none => some s.exit
  | .blockedOnErrCh _ => none
  | .exited => none

/-- What can happen next in a streaming call: the caller's context is cancelled, the
consumer receives a chunk, or the producer moves. The consumer never receives from
the error channel. -/
inductive StreamAction where
  | cancel
  | receive
  | produce (pickDone : Bool)
  deriving DecidableEq, Repr

/-- The step function of the streaming call; `none` when the action is not enabled. -/
def OpenAIStream.step (a : StreamAction) (s : OpenAIStream) : Option OpenAIStream :=
  match a with
  | .cancel => some { s with cancelled := true }
  | .receive =>
    match s.chunkCh.buf with
    | [] => none
    | _ :: rest => some { s with chunkCh := { s.chunkCh with buf := rest } }
  | .produce pickDone => s.produce pickDone

/-- The step relation of the streaming call. -/
def OpenAIStream.Step (s s' : OpenAIStream) : Prop :=
  ∃ a, s.step a = some s'

/-- The state after a schedule of actions; an action that is not enabled is skipped. -/
def OpenAIStream.exec (s : OpenAIStream) : List StreamAction → OpenAIStream
  | [] => s
  | a :: rest =>
    match s.step a with
    | some s' => s'.exec rest
    | none => s.exec rest

/-- The producer observes the cancellation in its next move: it stands at one of the
two `select`s with the context done, and at the second one the `ctx.Done()` case is
the one taken. -/
def OpenAIStream.observesCancel (pickDone : Bool) (s : OpenAIStream) : Bool :=
  s.cancelled &&
    match s.pc with
    | .check _ => true
    | .deliver chunk => pickDone || (s.chunkCh.trySend chunk).isNone
    | _ => false

/-! ## Anthropic streaming bridge (`anthropicProvider.ChatCompletionStream`) -/

namespace anthropic

/-- `anthropic.ErrorResponse.Error` when it is not nil: the fields read. -/
structure APIError where
  Type_ : String
  Message : String
  deriving DecidableEq, Repr

/-- One invocation, by `CreateMessagesStream`, of a callback the adapter registers,
with the fields of the event data the callback reads. Upstream events for which no
callback is registered run no code of the adapter and do not appear. -/
inductive StreamEvent where
  | OnMessageStart (id : String) (model : String)
  /-- The field `Delta.Text` is a `*string`. -/
  | OnContentBlockDelta (index : Int) (text : Option String)
  | OnMessageDelta (stopReason : String)
  | OnMessageStop
  /-- The field `Error` is a pointer. -/
  | OnError (error : Option APIError)
  deriving DecidableEq, Repr

end anthropic

/-- Where the code of one Anthropic streaming call stands. -/
inductive BridgeStatus where
  /-- The goroutine is inside `CreateMessagesStream`, between two callbacks. -/
  | running
  /-- Blocked in `chunkChan <- chunk`: the consumer receives no more chunks. -/
  | blockedOnChunkSend
  /-- Blocked in `errorChan <- err` on a full error channel. -/
  | blockedOnErrorSend
  /-- A nil `Delta.Text` was dereferenced: the goroutine panics, its deferred
  `close(chunkChan)` runs, and the process dies. -/
  | panicked
  /-- No code of the call is left to run. -/
  | returned
  deriving DecidableEq, Repr

/-- The state of one streaming call to the Anthropic adapter. -/
structure AnthropicStream where
  streamID : String
  streamModel : String
  /-- The chunks sent on the unbuffered `chunkChan` so far (each was received by the
  consumer), oldest first. -/
  chunksSent : List ChatCompletionChunk
  chunkClosed : Bool
  errorChan : Chan GoError
  /-- How many more chunks the consumer is going to receive. -/
  reads : Nat
  status : BridgeStatus
  sdkCalls : List SdkCall
  deriving DecidableEq, Repr

/-- `anthropicProvider.ChatCompletionStream` at its return: either the role loop
failed (error sent, chunk channel closed, no goroutine), or the goroutine is started
and has called `CreateMessagesStream`. -/
def anthropicProvider.ChatCompletionStream (float32 : Float64 → Float32) (apiKey : String)
    (req : ChatCompletionRequest) (reads : Nat) : AnthropicStream :=
  let errorChan : Chan GoError := Chan.make 1
  match anthropicProvider.messagesLoop [] "" req.Messages with
  | .error err =>
    match errorChan.trySend err with
    | some ch =>
      { streamID := "", streamModel := "", chunksSent := [], chunkClosed := true
        errorChan := ch, reads := reads, status := .returned, sdkCalls := [] }
    | none =>
      { streamID := "", streamModel := "", chunksSent := [], chunkClosed := false
        errorChan := errorChan, reads := reads, status := .blockedOnErrorSend
        sdkCalls := [] }
  | .ok (anthropicMessages, systemMessage) =>
    let baseRequest :=
      anthropicProvider.messagesRequest float32 req anthropicMessages systemMessage true
    { streamID := "", streamModel := "", chunksSent := [], chunkClosed := false
      errorChan := errorChan, reads := reads, status := .running
      sdkCalls := [.anthropicCreateMessagesStream apiKey baseRequest] }

/-- The send `chunkChan <- chunk` on the unbuffered chunk channel. -/
def AnthropicStream.sendChunk (s : AnthropicStream) (chunk : ChatCompletionChunk) :
    AnthropicStream :=
  match s.reads with
  | n + 1 => { s with chunksSent := s.chunksSent ++ [chunk], reads := n }
  | 0 => { s with status := .blockedOnChunkSend }

/-- The statement `select { case errorChan <- err: default: }`. -/
def AnthropicStream.offerErr (s : AnthropicStream) (err : GoError) : AnthropicStream :=
  match s.errorChan.trySend err with
  | some ch => { s with errorChan := ch }
  | none => s

/-- The body of the callback invoked by `ev`; `now` is the reading of
`time.Now().Unix()` in it. Nothing runs once the goroutine is blocked or dead. -/
def AnthropicStream.onEvent (now : Int) (s : AnthropicStream) (ev : anthropic.StreamEvent) :
    AnthropicStream :=
  match s.status with
  | .running =>
    match ev with
    | .OnMessageStart id model => { s with streamID := id, streamModel := model }
    | .OnContentBlockDelta index text =>
      match text with
      | none => { s with status := .panicked, chunkClosed := true }
      | some text =>
        if text ≠ "" then
          s.sendChunk
            { ID := s.streamID
              Object := "chat.completion.chunk"
              Created := now
              Model := s.streamModel
              Choices :=
                [{ Index := index
                   Delta := { Role := "assistant", Content := text }
                   FinishReason := none }] }
        else s
    | .OnMessageDelta stopReason =>
      let finishReason := stopReason
      if finishReason = "" then
        s.sendChunk
          { ID := s.streamID
            Object := "chat.completion.chunk"
            Created := now
            Model := s.streamModel
            Choices :=
              [{ Index := 0
                 FinishReason := some finishReason
                 Delta := { Role := "assistant", Content := "" } }] }
      else s
    | .OnMessageStop => s
    | .OnError error =>
      match error with
      | some e =>
        s.offerErr (.errorf ("anthropic stream callback error: type=" ++ e.Type_ ++
          ", message=" ++ e.Message))
      | none => s
  | _ => s

/-- The callbacks of one stream, each with its clock reading, in order. -/
def AnthropicStream.onEvents (s : AnthropicStream) :
    List (Int × anthropic.StreamEvent) → AnthropicStream
  | [] => s
  | (now, ev) :: rest => (s.onEvent now ev).onEvents rest

/-- The end of the goroutine: `CreateMessagesStream` has returned `err` (`none` is
nil), the failure is offered to the error channel, and `defer close(chunkChan)` runs. -/
def AnthropicStream.onReturn (s : AnthropicStream) (err : Option GoError) : AnthropicStream :=
  match s.status with
  | .running =>
    let s :=
      match err with
      | some err => s.offerErr (.wrapf "failed to complete messages stream: " err)
      | none => s
    { s with chunkClosed := true, status := .returned }
  | _ => s

/-- A whole streaming call: the callbacks `events` and then the return value `err` of
`CreateMessagesStream`, with a consumer that receives `reads` chunks. -/
def anthropicProvider.runStream (float32 : Float64 → Float32) (apiKey : String)
    (req : ChatCompletionRequest) (reads : Nat)
    (events : List (Int × anthropic.StreamEvent)) (err : Option GoError) : AnthropicStream :=
  ((anthropicProvider.ChatCompletionStream float32 apiKey req reads).onEvents events).onReturn
    err

/-! ## Sample inputs -/

/-- A request with an empty model and one user message. -/
def emptyModelRequest : ChatCompletionRequest :=
  { Model := "", Messages := [{ Role := "user", Content := "hi", Name := "" }]
    MaxTokens := none, Temperature := none, TopP := none
    Stop := [], Stream := false, User := "" }

/-- A request for `gpt-4o` with an empty messages list. -/
def emptyMessagesRequest : ChatCompletionRequest :=
  { Model := "gpt-4o", Messages := []
    MaxTokens := none, Temperature := none, TopP := none
    Stop := [], Stream := false, User := "" }

/-- A request whose second message has the role `tool`. -/
def toolRoleRequest : ChatCompletionRequest :=
  { Model := "gpt-4o"
    Messages :=
      [{ Role := "system", Content := "be brief", Name := "" },
       { Role := "tool", Content := "42", Name := "" },
       { Role := "user", Content := "hi", Name := "" }]
    MaxTokens := none, Temperature := none, TopP := none
    Stop := [], Stream := false, User := "" }

/-- A well-formed request for `gpt-4o`. -/
def helloRequest : ChatCompletionRequest :=
  { Model := "gpt-4o"
    Messages :=
      [{ Role := "system", Content := "be brief", Name := "" },
       { Role := "user", Content := "hi", Name := "" }]
    MaxTokens := none, Temperature := none, TopP := none
    Stop := [], Stream := false, User := "" }

/-- An upstream OpenAI answer whose usage total is not the sum of its two parts. -/
def skewedCompletion : openai.ChatCompletion :=
  { ID := "chatcmpl-1", Object := "chat.completion", Created := 1700000000
    Model := "gpt-4o"
    Choices := [{ Message := { Role := "assistant", Content := "hello" }
                  FinishReason := "stop" }]
    Usage := { PromptTokens := 1, CompletionTokens := 2, TotalTokens := 5 } }

/-- An upstream Anthropic answer. -/
def sampleMessagesResponse : anthropic.MessagesResponse :=
  { ID := "msg_1", Role := "assistant", Model := "claude-3-opus"
    Content := [{ Text := some "hello" }], StopReason := "end_turn"
    Usage := { InputTokens := 3, OutputTokens := 4 } }

/-- An upstream that answers every blocking call with the two samples above. -/
def sampleUpstream : Upstream :=
  { openaiNew := fun _ _ => .ok skewedCompletion
    anthropicCreateMessages := fun _ _ => .ok sampleMessagesResponse
    now := 1700000000
    float32 := fun x => { bits := x.bits } }

/-- A well-formed request for `claude-3-opus`. -/
def claudeRequest : ChatCompletionRequest :=
  { Model := "claude-3-opus"
    Messages := [{ Role := "user", Content := "hi", Name := "" }]
    MaxTokens := none, Temperature := none, TopP := none
    Stop := [], Stream := true, User := "" }

/-- The callback sequence start, content delta `He`, content delta `llo`, message
delta with stop reason `stop`, stop, with the clock readings of the callbacks. -/
def helloEvents (X M : String) (t0 t1 t2 t3 t4 : Int) : List (Int × anthropic.StreamEvent) :=
  [(t0, .OnMessageStart X M),
   (t1, .OnContentBlockDelta 0 (some "He")),
   (t2, .OnContentBlockDelta 0 (some "llo")),
   (t3, .OnMessageDelta "stop"),
   (t4, .OnMessageStop)]

/-- The canonical chunk the bridge makes for a content delta. -/
def contentChunk (id model : String) (now : Int) (index : Int) (text : String) :
    ChatCompletionChunk :=
  { ID := id, Object := "chat.completion.chunk", Created := now, Model := model
    Choices := [{ Index := index, Delta := { Role := "assistant", Content := text }
                  FinishReason := none }] }

/-- The canonical chunk the bridge makes in `OnMessageDelta`. -/
def finishChunk (id model : String) (now : Int) (finishReason : String) :
    ChatCompletionChunk :=
  { ID := id, Object := "chat.completion.chunk", Created := now, Model := model
    Choices := [{ Index := 0, Delta := { Role := "assistant", Content := "" }
                  FinishReason := some finishReason }] }

/-- One upstream chunk of an OpenAI stream. -/
def sampleUpstreamChunk : openai.ChatCompletionChunk :=
  { ID := "chatcmpl-1", Object := "chat.completion.chunk", Created := 1700000000
    Model := "gpt-4o"
    Choices := [{ Index := 0, Delta := { Role := "assistant", Content := "He" }
                  FinishReason := "" }] }

/-- A schedule in which the producer opens the stream and pulls one chunk, after
which the caller's context is cancelled. -/
def cancelAfterFirstPull : List StreamAction :=
  [.produce false, .produce false, .cancel]

/-- The error-channel invariant of the OpenAI producer: the channel has capacity 1,
the producer is never blocked on it, and its buffer is empty until the producer has
exited, when it holds at most one error. -/
def OpenAIStream.errInv (s : OpenAIStream) : Prop :=
  s.errCh.cap = 1 ∧
    match s.pc with
    | .exited => s.errCh.buf.length ≤ 1
    | .blockedOnErrCh _ => False
    | _ => s.errCh.buf = []

/-- The error-channel invariant of the Anthropic bridge: the channel has capacity 1,
holds at most one error, and no code of the call is blocked on it. -/
def AnthropicStream.errInv (s : AnthropicStream) : Prop :=
  s.errorChan.cap = 1 ∧ s.errorChan.buf.length ≤ 1 ∧ s.status ≠ .blockedOnErrorSend

/-- Two error callbacks in a row. -/
def twoErrorEvents : List (Int × anthropic.StreamEvent) :=
  [(1700000000, .OnError (some { Type_ := "overloaded_error", Message := "busy" })),
   (1700000001, .OnError (some { Type_ := "api_error", Message := "again" }))]

/-- A request for `gpt-4o` that sets `temperature` (0.7), `top_p` (0.9) and
`max_tokens` (16). -/
def tunedRequest : ChatCompletionRequest :=
  { Model := "gpt-4o"
    Messages := [{ Role := "user", Content := "hi", Name := "" }]
    MaxTokens := some 16
    Temperature := some { bits := 0x3FE6666666666666 }
    TopP := some { bits := 0x3FECCCCCCCCCCCCD }
    Stop := [], Stream := false, User := "" }

/-- The native message list in the words of the specification: the user and assistant
messages in their original order, each with its content unchanged. -/
def specNativeMessages (msgs : List openAIMessage) : List anthropic.Message :=
  (msgs.filter fun m => m.Role = "user" || m.Role = "assistant").map fun m =>
    if m.Role = "user" then anthropic.Message.NewUserTextMessage m.Content
    else anthropic.Message.NewAssistantTextMessage m.Content

/-- The content of the last system message of the list, or `dflt` when the list has no
system message. -/
def specSystemOr (dflt : String) (msgs : List openAIMessage) : String :=
  match (msgs.filter fun m => m.Role = "system").getLast? with
  | some m => m.Content
  | none => dflt

/-- The `System` field in the words of the specification: the content of the last
system message, or the empty string when there is none. -/
def specSystem (msgs : List openAIMessage) : String :=
  specSystemOr "" msgs

/-- A request for `claude-3-opus` with two system messages among its five messages and
no `max_tokens`. -/
def twoSystemsRequest : ChatCompletionRequest :=
  { Model := "claude-3-opus"
    Messages :=
      [{ Role := "system", Content := "be brief", Name := "" },
       { Role := "user", Content := "hi", Name := "" },
       { Role := "system", Content := "be kind", Name := "" },
       { Role := "assistant", Content := "hello", Name := "" },
       { Role := "user", Content := "bye", Name := "" }]
    MaxTokens := none, Temperature := none, TopP := none
    Stop := [], Stream := false, User := "" }

/-! ## Theorems: provider registry -/

theorem isPrefixOf_gpt_not_claude (l : List Char) (h : "gpt".data.isPrefixOf l = true) :
    "claude".data.isPrefixOf l = false := by
  match l with
  | [] => simp at h
  | c :: l' =>
    have e1 : "gpt".data = 'g' :: ['p', 't'] := rfl
    have e2 : "claude".data = 'c' :: ['l', 'a', 'u', 'd', 'e'] := rfl
    rw [e1] at h
    rw [e2]
    simp only [List.isPrefixOf, Bool.and_eq_true, beq_iff_eq] at h
    simp only [List.isPrefixOf, Bool.and_eq_false_iff]
    left
    rw [← h.1]
    decide

theorem getProviderTypeFromModel_cases (caseTable : Char → Char) (m : String) :
    (HasPrefix (ToLower caseTable m) "claude" = true ∧
        getProviderTypeFromModel caseTable m = "anthropic") ∨
      (HasPrefix (ToLower caseTable m) "claude" = false ∧
        getProviderTypeFromModel caseTable m = "openai") := by
  unfold getProviderTypeFromModel
  by_cases hg : HasPrefix (ToLower caseTable m) "gpt" = true
  · have hc : HasPrefix (ToLower caseTable m) "claude" = false :=
      isPrefixOf_gpt_not_claude _ hg
    right
    simp [hg, hc]
  · by_cases hc : HasPrefix (ToLower caseTable m) "claude" = true
    · left
      simp [hg, hc]
    · right
      simp [hg, hc]

theorem NewProviderFactory_openai (k : GoMap String) :
    (NewProviderFactory k).providers "openai" = (k "openai").map NewOpenAIProvider := by
  unfold NewProviderFactory
  cases ho : k "openai" <;> cases ha : k "anthropic" <;>
    simp [GoMap.set, GoMap.empty]

theorem NewProviderFactory_anthropic (k : GoMap String) :
    (NewProviderFactory k).providers "anthropic" =
      (k "anthropic").map NewAntropicProvider := by
  unfold NewProviderFactory
  cases ho : k "openai" <;> cases ha : k "anthropic" <;>
    simp [GoMap.set, GoMap.empty]

theorem NewProviderFactory_other (k : GoMap String) (name : String)
    (h1 : name ≠ "openai") (h2 : name ≠ "anthropic") :
    (NewProviderFactory k).providers name = none := by
  unfold NewProviderFactory
  cases ho : k "openai" <;> cases ha : k "anthropic" <;>
    simp [GoMap.set, GoMap.empty, h1, h2]

theorem getProviderType_openai_or_anthropic (caseTable : Char → Char) (m : String) :
    getProviderTypeFromModel caseTable m = "openai" ∨
      getProviderTypeFromModel caseTable m = "anthropic" := by
  rcases getProviderTypeFromModel_cases caseTable m with h | h
  · exact Or.inr h.2
  · exact Or.inl h.2

theorem NewProviderFactory_lookup_none_iff (caseTable : Char → Char) (k : GoMap String)
    (m : String) :
    (NewProviderFactory k).providers (getProviderTypeFromModel caseTable m) = none ↔
      k (getProviderTypeFromModel caseTable m) = none := by
  rcases getProviderType_openai_or_anthropic caseTable m with h | h
  · rw [h, NewProviderFactory_openai]
    cases k "openai" <;> simp
  · rw [h, NewProviderFactory_anthropic]
    cases k "anthropic" <;> simp

/-- C1: `getProviderTypeFromModel` answers `anthropic` exactly when the lower-cased
model starts with `claude` and `openai` in every other case (so also when it starts
with `gpt`); hence a factory holding
both credentials resolves `gpt-4o`, `unknown-model` and `GPT-4o` to the OpenAI adapter
and `claude-3-opus` and `Claude-3` to the Anthropic adapter. -/
theorem C1_model_routing (caseTable : Char → Char) (m : String) :
    (getProviderTypeFromModel caseTable m = "anthropic" ↔
        HasPrefix (ToLower caseTable m) "claude" = true) ∧
    (getProviderTypeFromModel caseTable m = "openai" ↔
        HasPrefix (ToLower caseTable m) "claude" = false) ∧
    (HasPrefix (ToLower caseTable m) "gpt" = true →
        getProviderTypeFromModel caseTable m = "openai") ∧
    (∀ (apiKeys : GoMap String) (ko ka : String),
      apiKeys "openai" = some ko → apiKeys "anthropic" = some ka →
        (NewProviderFactory apiKeys).GetProvider caseTable "gpt-4o"
            = .ok (NewOpenAIProvider ko) ∧
          (NewProviderFactory apiKeys).GetProvider caseTable "unknown-model"
            = .ok (NewOpenAIProvider ko) ∧
          (NewProviderFactory apiKeys).GetProvider caseTable "claude-3-opus"
            = .ok (NewAntropicProvider ka) ∧
          (NewProviderFactory apiKeys).GetProvider caseTable "GPT-4o"
            = .ok (NewOpenAIProvider ko) ∧
          (NewProviderFactory apiKeys).GetProvider caseTable "Claude-3"
            = .ok (NewAntropicProvider ka)) := by
  refine ⟨?_, ?_, ?_, ?_⟩
  · rcases getProviderTypeFromModel_cases caseTable m with h | h
    · simp [h.1, h.2]
    · simp [h.1, h.2]
  · rcases getProviderTypeFromModel_cases caseTable m with h | h
    · simp [h.1, h.2]
    · simp [h.1, h.2]
  · intro hg
    simp [getProviderTypeFromModel, hg]
  · intro apiKeys ko ka ho ha
    have e1 : getProviderTypeFromModel caseTable "gpt-4o" = "openai" := rfl
    have e2 : getProviderTypeFromModel caseTable "unknown-model" = "openai" := rfl
    have e3 : getProviderTypeFromModel caseTable "claude-3-opus" = "anthropic" := rfl
    have e4 : getProviderTypeFromModel caseTable "GPT-4o" = "openai" := rfl
    have e5 : getProviderTypeFromModel caseTable "Claude-3" = "anthropic" := rfl
    simp only [ProviderFactory.GetProvider, e1, e2, e3, e4, e5,
      NewProviderFactory_openai, NewProviderFactory_anthropic, ho, ha, Option.map_some']
    simp

/-- C1, at the default credentials and the model `Claude-3`. -/
theorem C1_model_routing_witness :
    (NewProviderFactory defaultAPIKeys).GetProvider id "gpt-4o"
        = .ok (NewOpenAIProvider "abc") ∧
      (NewProviderFactory defaultAPIKeys).GetProvider id "unknown-model"
        = .ok (NewOpenAIProvider "abc") ∧
      (NewProviderFactory defaultAPIKeys).GetProvider id "claude-3-opus"
        = .ok (NewAntropicProvider "abc") ∧
      (NewProviderFactory defaultAPIKeys).GetProvider id "GPT-4o"
        = .ok (NewOpenAIProvider "abc") ∧
      (NewProviderFactory defaultAPIKeys).GetProvider id "Claude-3"
        = .ok (NewAntropicProvider "abc") :=
  (C1_model_routing id "Claude-3").2.2.2 defaultAPIKeys "abc" "abc" rfl rfl

/-- C2: on `NewProviderFactory k`, `GetProvider m` fails, with the not-found error,
exactly when the provider name `m` resolves to is not a key of `k`, and otherwise
returns the adapter made from that credential; the registry holds an entry for
`openai` and for `anthropic` exactly when `k` has that key and holds no other entry
(`NewProviderFactory` is a total function: construction cannot fail); with only an
`anthropic` credential, `unknown-model` is not found. -/
theorem C2_not_found_iff_credential_missing (caseTable : Char → Char) (k : GoMap String)
    (m : String) :
    ((NewProviderFactory k).GetProvider caseTable m
        = .error (.errorf ("provider not found for model: " ++ m)) ↔
      k (getProviderTypeFromModel caseTable m) = none) ∧
    ((∃ provider, (NewProviderFactory k).GetProvider caseTable m = .ok provider) ↔
      k (getProviderTypeFromModel caseTable m) ≠ none) ∧
    (NewProviderFactory k).providers "openai" = (k "openai").map NewOpenAIProvider ∧
    (NewProviderFactory k).providers "anthropic"
      = (k "anthropic").map NewAntropicProvider ∧
    (∀ name, ((NewProviderFactory k).providers name).isSome = true ↔
      ((name = "openai" ∨ name = "anthropic") ∧ (k name).isSome = true)) ∧
    (NewProviderFactory anthropicOnlyKeys).GetProvider caseTable "unknown-model"
      = .error (.errorf "provider not found for model: unknown-model") := by
  have hiff := NewProviderFactory_lookup_none_iff caseTable k m
  refine ⟨?_, ?_, NewProviderFactory_openai k, NewProviderFactory_anthropic k, ?_, rfl⟩
  · unfold ProviderFactory.GetProvider
    simp only
    cases hp : (NewProviderFactory k).providers (getProviderTypeFromModel caseTable m) with
    | none => simp [← hiff, hp]
    | some p =>
      have : k (getProviderTypeFromModel caseTable m) ≠ none := by
        rw [← hiff.ne, hp]; simp
      simp [this]
  · unfold ProviderFactory.GetProvider
    simp only
    cases hp : (NewProviderFactory k).providers (getProviderTypeFromModel caseTable m) with
    | none => simp [← hiff, hp]
    | some p =>
      have : k (getProviderTypeFromModel caseTable m) ≠ none := by
        rw [← hiff.ne, hp]; simp
      simp [this]
  · intro name
    by_cases h1 : name = "openai"
    · subst h1
      rw [NewProviderFactory_openai]
      cases k "openai" <;> simp
    · by_cases h2 : name = "anthropic"
      · subst h2
        rw [NewProviderFactory_anthropic]
        cases k "anthropic" <;> simp
      · rw [NewProviderFactory_other k name h1 h2]
        simp [h1, h2]

/-! ## Theorems: orchestration service -/

/-- C3, refuted as stated: with the default credentials, a request with an empty
model and a request with an empty messages list both reach the OpenAI adapter, in the
blocking and in the streaming method of the service; no validation error is returned. -/
theorem C3_service_calls_adapter_on_invalid_request :
    emptyModelRequest.Model = "" ∧ emptyMessagesRequest.Messages = [] ∧
    (LLMServiceImpl.ChatCompletion id sampleUpstream (NewProviderFactory defaultAPIKeys)
        emptyModelRequest).adapterCalls
      = [.ChatCompletion (NewOpenAIProvider "abc") emptyModelRequest] ∧
    (LLMServiceImpl.ChatCompletion id sampleUpstream (NewProviderFactory defaultAPIKeys)
        emptyModelRequest).result
      = .ok (OpenAIProvider.toResponse skewedCompletion) ∧
    (LLMServiceImpl.ChatCompletionStream id (NewProviderFactory defaultAPIKeys)
        emptyModelRequest).adapterCalls
      = [.ChatCompletionStream (NewOpenAIProvider "abc") emptyModelRequest] ∧
    (LLMServiceImpl.ChatCompletion id sampleUpstream (NewProviderFactory defaultAPIKeys)
        emptyMessagesRequest).adapterCalls
      = [.ChatCompletion (NewOpenAIProvider "abc") emptyMessagesRequest] ∧
    (LLMServiceImpl.ChatCompletion id sampleUpstream (NewProviderFactory defaultAPIKeys)
        emptyMessagesRequest).sdkCalls.length = 1 ∧
    (LLMServiceImpl.ChatCompletionStream id (NewProviderFactory defaultAPIKeys)
        emptyMessagesRequest).adapterCalls
      = [.ChatCompletionStream (NewOpenAIProvider "abc") emptyMessagesRequest] := by
  refine ⟨rfl, rfl, rfl, rfl, rfl, rfl, rfl, rfl⟩

/-- C3, amended: the service does not validate. For every request, also one with an
empty model or an empty messages list, both service methods invoke no adapter method
exactly when `GetProvider(req.Model)` fails, and then return the wrapped not-found
error; otherwise they invoke the resolved adapter's method once, with the request.
An empty model resolves to `openai`, so on a factory built from `k` it reaches no
adapter exactly when `openai` is not a key of `k`. -/
theorem C3_service_dispatch_without_validation (caseTable : Char → Char) (up : Upstream)
    (f : ProviderFactory) (k : GoMap String) (req : ChatCompletionRequest) :
    (∀ err, f.GetProvider caseTable req.Model = .error err →
      (LLMServiceImpl.ChatCompletion caseTable up f req).adapterCalls = [] ∧
      (LLMServiceImpl.ChatCompletion caseTable up f req).sdkCalls = [] ∧
      (LLMServiceImpl.ChatCompletion caseTable up f req).result
        = .error (.wrapf ("provider not found for model " ++ req.Model ++ ": ") err) ∧
      (LLMServiceImpl.ChatCompletionStream caseTable f req).adapterCalls = [] ∧
      (LLMServiceImpl.ChatCompletionStream caseTable f req).result
        = .failed [.wrapf ("provider not found for model " ++ req.Model ++ ": ") err]) ∧
    (∀ provider, f.GetProvider caseTable req.Model = .ok provider →
      (LLMServiceImpl.ChatCompletion caseTable up f req).adapterCalls
        = [.ChatCompletion provider req] ∧
      (LLMServiceImpl.ChatCompletionStream caseTable f req).adapterCalls
        = [.ChatCompletionStream provider req] ∧
      (LLMServiceImpl.ChatCompletionStream caseTable f req).result
        = .delegated provider req) ∧
    (req.Model = "" →
      ((LLMServiceImpl.ChatCompletion caseTable up (NewProviderFactory k) req).adapterCalls
          = [] ↔ k "openai" = none) ∧
      ((LLMServiceImpl.ChatCompletionStream caseTable (NewProviderFactory k) req).adapterCalls
          = [] ↔ k "openai" = none)) := by
  refine ⟨?_, ?_, ?_⟩
  · intro err h
    simp [LLMServiceImpl.ChatCompletion, LLMServiceImpl.ChatCompletionStream, h]
  · intro provider h
    refine ⟨?_, ?_, ?_⟩
    · unfold LLMServiceImpl.ChatCompletion
      simp only [h]
      cases (provider.ChatCompletion up req).value <;> rfl
    · simp [LLMServiceImpl.ChatCompletionStream, h]
    · simp [LLMServiceImpl.ChatCompletionStream, h]
  · intro hm
    have ht : getProviderTypeFromModel caseTable "" = "openai" := rfl
    have hg : (NewProviderFactory k).GetProvider caseTable req.Model
        = match k "openai" with
          | none => .error (.errorf ("provider not found for model: " ++ req.Model))
          | some apiKey => .ok (NewOpenAIProvider apiKey) := by
      unfold ProviderFactory.GetProvider
      simp only [hm, ht, NewProviderFactory_openai]
      cases k "openai" <;> rfl
    constructor
    · unfold LLMServiceImpl.ChatCompletion
      rw [hg]
      cases hk : k "openai" with
      | none => simp
      | some apiKey =>
        simp only
        cases ((NewOpenAIProvider apiKey).ChatCompletion up req).value <;> simp
    · unfold LLMServiceImpl.ChatCompletionStream
      rw [hg]
      cases hk : k "openai" <;> simp

/-- C3 amended, at a request with an empty model: without an `openai` credential no
adapter is reached and the not-found error comes back; with the default credentials
the OpenAI adapter is invoked. -/
theorem C3_service_dispatch_without_validation_witness :
    ((LLMServiceImpl.ChatCompletion id sampleUpstream (NewProviderFactory anthropicOnlyKeys)
          emptyModelRequest).adapterCalls = [] ∧
      (LLMServiceImpl.ChatCompletion id sampleUpstream (NewProviderFactory anthropicOnlyKeys)
          emptyModelRequest).sdkCalls = [] ∧
      (LLMServiceImpl.ChatCompletion id sampleUpstream (NewProviderFactory anthropicOnlyKeys)
          emptyModelRequest).result
        = .error (.wrapf ("provider not found for model " ++ emptyModelRequest.Model ++ ": ")
            (.errorf "provider not found for model: ")) ∧
      (LLMServiceImpl.ChatCompletionStream id (NewProviderFactory anthropicOnlyKeys)
          emptyModelRequest).adapterCalls = [] ∧
      (LLMServiceImpl.ChatCompletionStream id (NewProviderFactory anthropicOnlyKeys)
          emptyModelRequest).result
        = .failed [.wrapf ("provider not found for model " ++ emptyModelRequest.Model ++ ": ")
            (.errorf "provider not found for model: ")]) ∧
    ((LLMServiceImpl.ChatCompletion id sampleUpstream (NewProviderFactory defaultAPIKeys)
          emptyModelRequest).adapterCalls
        = [.ChatCompletion (NewOpenAIProvider "abc") emptyModelRequest] ∧
      (LLMServiceImpl.ChatCompletionStream id (NewProviderFactory defaultAPIKeys)
          emptyModelRequest).adapterCalls
        = [.ChatCompletionStream (NewOpenAIProvider "abc") emptyModelRequest] ∧
      (LLMServiceImpl.ChatCompletionStream id (NewProviderFactory defaultAPIKeys)
          emptyModelRequest).result
        = .delegated (NewOpenAIProvider "abc") emptyModelRequest) ∧
    (((LLMServiceImpl.ChatCompletion id sampleUpstream (NewProviderFactory defaultAPIKeys)
          emptyModelRequest).adapterCalls = [] ↔ defaultAPIKeys "openai" = none) ∧
      ((LLMServiceImpl.ChatCompletionStream id (NewProviderFactory defaultAPIKeys)
          emptyModelRequest).adapterCalls = [] ↔ defaultAPIKeys "openai" = none)) :=
  ⟨(C3_service_dispatch_without_validation id sampleUpstream
      (NewProviderFactory anthropicOnlyKeys) anthropicOnlyKeys emptyModelRequest).1
      (.errorf "provider not found for model: ") rfl,
    (C3_service_dispatch_without_validation id sampleUpstream
      (NewProviderFactory defaultAPIKeys) defaultAPIKeys emptyModelRequest).2.1
      (NewOpenAIProvider "abc") rfl,
    (C3_service_dispatch_without_validation id sampleUpstream
      (NewProviderFactory defaultAPIKeys) defaultAPIKeys emptyModelRequest).2.2 rfl⟩

/-! ## Theorems: role checking in the blocking adapter calls -/

theorem supportedRole_true_iff (role : String) :
    supportedRole role = true ↔ role = "user" ∨ role = "assistant" ∨ role = "system" := by
  simp [supportedRole, or_assoc]

theorem supportedRole_false_iff (role : String) :
    supportedRole role = false ↔ role ≠ "user" ∧ role ≠ "assistant" ∧ role ≠ "system" := by
  simp [supportedRole, and_assoc]

theorem openai_messagesLoop_error_at (errHead : String) :
    ∀ (msgs : List openAIMessage) (acc : List openai.ChatCompletionMessageParamUnion)
      (i : Nat) (msg : openAIMessage),
      msgs[i]? = some msg → supportedRole msg.Role = false →
      (∀ j, j < i → ∀ m, msgs[j]? = some m → supportedRole m.Role = true) →
      OpenAIProvider.messagesLoop errHead acc msgs = .error (.errorf (errHead ++ msg.Role))
  | [], _, i, msg, hi, _, _ => by simp at hi
  | m0 :: rest, acc, 0, msg, hi, hbad, _ => by
    simp only [List.getElem?_cons_zero, Option.some.injEq] at hi
    subst hi
    obtain ⟨h1, h2, h3⟩ := (supportedRole_false_iff _).1 hbad
    simp [OpenAIProvider.messagesLoop, h1, h2, h3]
  | m0 :: rest, acc, i + 1, msg, hi, hbad, hpre => by
    have h0 : supportedRole m0.Role = true := hpre 0 (Nat.succ_pos i) m0 (by simp)
    have hi' : rest[i]? = some msg := by simpa using hi
    have hpre' : ∀ j, j < i → ∀ m, rest[j]? = some m → supportedRole m.Role = true := by
      intro j hj m hm
      exact hpre (j + 1) (Nat.succ_lt_succ hj) m (by simpa using hm)
    unfold OpenAIProvider.messagesLoop
    rcases (supportedRole_true_iff _).1 h0 with h | h | h
    · rw [if_pos h]
      exact openai_messagesLoop_error_at errHead rest _ i msg hi' hbad hpre'
    · by_cases hu : m0.Role = "user"
      · rw [if_pos hu]
        exact openai_messagesLoop_error_at errHead rest _ i msg hi' hbad hpre'
      · rw [if_neg hu, if_pos h]
        exact openai_messagesLoop_error_at errHead rest _ i msg hi' hbad hpre'
    · by_cases hu : m0.Role = "user"
      · rw [if_pos hu]
        exact openai_messagesLoop_error_at errHead rest _ i msg hi' hbad hpre'
      · by_cases ha : m0.Role = "assistant"
        · rw [if_neg hu, if_pos ha]
          exact openai_messagesLoop_error_at errHead rest _ i msg hi' hbad hpre'
        · rw [if_neg hu, if_neg ha, if_pos h]
          exact openai_messagesLoop_error_at errHead rest _ i msg hi' hbad hpre'

theorem openai_messagesLoop_ok (errHead : String) :
    ∀ (msgs : List openAIMessage) (acc : List openai.ChatCompletionMessageParamUnion),
      (∀ m ∈ msgs, supportedRole m.Role = true) →
      ∃ messages, OpenAIProvider.messagesLoop errHead acc msgs = .ok messages
  | [], acc, _ => ⟨acc, rfl⟩
  | m0 :: rest, acc, h => by
    have h0 : supportedRole m0.Role = true := h m0 (List.mem_cons_self _ _)
    have hrest : ∀ m ∈ rest, supportedRole m.Role = true :=
      fun m hm => h m (List.mem_cons_of_mem _ hm)
    unfold OpenAIProvider.messagesLoop
    by_cases hu : m0.Role = "user"
    · rw [if_pos hu]
      exact openai_messagesLoop_ok errHead rest _ hrest
    · by_cases ha : m0.Role = "assistant"
      · rw [if_neg hu, if_pos ha]
        exact openai_messagesLoop_ok errHead rest _ hrest
      · by_cases hs : m0.Role = "system"
        · rw [if_neg hu, if_neg ha, if_pos hs]
          exact openai_messagesLoop_ok errHead rest _ hrest
        · exfalso
          rcases (supportedRole_true_iff _).1 h0 with h | h | h
          · exact hu h
          · exact ha h
          · exact hs h

theorem anthropic_messagesLoop_error_at :
    ∀ (msgs : List openAIMessage) (acc : List anthropic.Message) (sys : String)
      (i : Nat) (msg : openAIMessage),
      msgs[i]? = some msg → supportedRole msg.Role = false →
      (∀ j, j < i → ∀ m, msgs[j]? = some m → supportedRole m.Role = true) →
      anthropicProvider.messagesLoop acc sys msgs
        = .error (.errorf ("unsupported message role: " ++ msg.Role))
  | [], _, _, i, msg, hi, _, _ => by simp at hi
  | m0 :: rest, acc, sys, 0, msg, hi, hbad, _ => by
    simp only [List.getElem?_cons_zero, Option.some.injEq] at hi
    subst hi
    obtain ⟨h1, h2, h3⟩ := (supportedRole_false_iff _).1 hbad
    simp [anthropicProvider.messagesLoop, h1, h2, h3]
  | m0 :: rest, acc, sys, i + 1, msg, hi, hbad, hpre => by
    have h0 : supportedRole m0.Role = true := hpre 0 (Nat.succ_pos i) m0 (by simp)
    have hi' : rest[i]? = some msg := by simpa using hi
    have hpre' : ∀ j, j < i → ∀ m, rest[j]? = some m → supportedRole m.Role = true := by
      intro j hj m hm
      exact hpre (j + 1) (Nat.succ_lt_succ hj) m (by simpa using hm)
    unfold anthropicProvider.messagesLoop
    by_cases hu : m0.Role = "user"
    · rw [if_pos hu]
      exact anthropic_messagesLoop_error_at rest _ _ i msg hi' hbad hpre'
    · by_cases ha : m0.Role = "assistant"
      · rw [if_neg hu, if_pos ha]
        exact anthropic_messagesLoop_error_at rest _ _ i msg hi' hbad hpre'
      · by_cases hs : m0.Role = "system"
        · rw [if_neg hu, if_neg ha, if_pos hs]
          exact anthropic_messagesLoop_error_at rest _ _ i msg hi' hbad hpre'
        · exfalso
          rcases (supportedRole_true_iff _).1 h0 with h | h | h
          · exact hu h
          · exact ha h
          · exact hs h

theorem anthropic_messagesLoop_ok :
    ∀ (msgs : List openAIMessage) (acc : List anthropic.Message) (sys : String),
      (∀ m ∈ msgs, supportedRole m.Role = true) →
      ∃ out, anthropicProvider.messagesLoop acc sys msgs = .ok out
  | [], acc, sys, _ => ⟨(acc, sys), rfl⟩
  | m0 :: rest, acc, sys, h => by
    have h0 : supportedRole m0.Role = true := h m0 (List.mem_cons_self _ _)
    have hrest : ∀ m ∈ rest, supportedRole m.Role = true :=
      fun m hm => h m (List.mem_cons_of_mem _ hm)
    unfold anthropicProvider.messagesLoop
    by_cases hu : m0.Role = "user"
    · rw [if_pos hu]
      exact anthropic_messagesLoop_ok rest _ _ hrest
    · by_cases ha : m0.Role = "assistant"
      · rw [if_neg hu, if_pos ha]
        exact anthropic_messagesLoop_ok rest _ _ hrest
      · by_cases hs : m0.Role = "system"
        · rw [if_neg hu, if_neg ha, if_pos hs]
          exact anthropic_messagesLoop_ok rest _ _ hrest
        · exfalso
          rcases (supportedRole_true_iff _).1 h0 with h | h | h
          · exact hu h
          · exact ha h
          · exact hs h

/-- C4: when message `i` has a role outside `system`, `user`, `assistant` and every
earlier message has a supported role, `ChatCompletion` of the OpenAI adapter and of
the Anthropic adapter return no response but the error made by
`fmt.Errorf("unsupported message role: %s", role)` with the role of message `i`, and
issue no SDK call; when every role is supported, each adapter issues its one SDK call
and returns what that call gave (the response, or the upstream error), so no
unsupported-role error is made. -/
theorem C4_unsupported_role_stops_before_sdk_call (up : Upstream) (apiKey : String)
    (req : ChatCompletionRequest) :
    (∀ (i : Nat) (msg : openAIMessage),
      req.Messages[i]? = some msg → supportedRole msg.Role = false →
      (∀ j, j < i → ∀ m, req.Messages[j]? = some m → supportedRole m.Role = true) →
        (OpenAIProvider.ChatCompletion up apiKey req).value
            = .error (.errorf ("unsupported message role: " ++ msg.Role)) ∧
          (OpenAIProvider.ChatCompletion up apiKey req).sdkCalls = [] ∧
          (anthropicProvider.ChatCompletion up apiKey req).value
            = .error (.errorf ("unsupported message role: " ++ msg.Role)) ∧
          (anthropicProvider.ChatCompletion up apiKey req).sdkCalls = [] ∧
          (GoError.errorf ("unsupported message role: " ++ msg.Role)).Error
            = "unsupported message role: " ++ msg.Role) ∧
    ((∀ m ∈ req.Messages, supportedRole m.Role = true) →
      (∃ params,
        (OpenAIProvider.ChatCompletion up apiKey req).sdkCalls
            = [.openaiNew apiKey params] ∧
          (OpenAIProvider.ChatCompletion up apiKey req).value
            = match up.openaiNew apiKey params with
              | .error err => .error (.wrapf "failed to get chat completion: " err)
              | .ok chatCompletion => .ok (OpenAIProvider.toResponse chatCompletion)) ∧
      (∃ messagesRequest,
        (anthropicProvider.ChatCompletion up apiKey req).sdkCalls
            = [.anthropicCreateMessages apiKey messagesRequest] ∧
          (anthropicProvider.ChatCompletion up apiKey req).value
            = match up.anthropicCreateMessages apiKey messagesRequest with
              | .error err => .error err
              | .ok anthropicResp =>
                .ok (anthropicProvider.toResponse up.now anthropicResp))) := by
  constructor
  · intro i msg hi hbad hpre
    have ho := openai_messagesLoop_error_at "unsupported message role: "
      req.Messages [] i msg hi hbad hpre
    have ha := anthropic_messagesLoop_error_at req.Messages [] "" i msg hi hbad hpre
    simp [OpenAIProvider.ChatCompletion, anthropicProvider.ChatCompletion, ho, ha,
      GoError.Error]
  · intro hall
    obtain ⟨messages, ho⟩ := openai_messagesLoop_ok "unsupported message role: "
      req.Messages [] hall
    obtain ⟨⟨anthropicMessages, systemMessage⟩, ha⟩ :=
      anthropic_messagesLoop_ok req.Messages [] "" hall
    constructor
    · refine ⟨{ Messages := messages, Model := req.Model
                Temperature := none, TopP := none, MaxTokens := none }, ?_, ?_⟩
      · unfold OpenAIProvider.ChatCompletion
        simp only [ho]
        split <;> rfl
      · unfold OpenAIProvider.ChatCompletion
        simp only [ho]
        split <;> simp_all
    · refine ⟨anthropicProvider.messagesRequest up.float32 req anthropicMessages
        systemMessage false, ?_, ?_⟩
      · unfold anthropicProvider.ChatCompletion
        simp only [ha]
        split <;> rfl
      · unfold anthropicProvider.ChatCompletion
        simp only [ha]
        split <;> simp_all

/-- C4, at a request whose second message has the role `tool`, and at a request with
supported roles only. -/
theorem C4_unsupported_role_stops_before_sdk_call_witness :
    ((OpenAIProvider.ChatCompletion sampleUpstream "abc" toolRoleRequest).value
          = .error (.errorf ("unsupported message role: " ++ "tool")) ∧
        (OpenAIProvider.ChatCompletion sampleUpstream "abc" toolRoleRequest).sdkCalls = [] ∧
        (anthropicProvider.ChatCompletion sampleUpstream "abc" toolRoleRequest).value
          = .error (.errorf ("unsupported message role: " ++ "tool")) ∧
        (anthropicProvider.ChatCompletion sampleUpstream "abc" toolRoleRequest).sdkCalls
          = [] ∧
        (GoError.errorf ("unsupported message role: " ++ "tool")).Error
          = "unsupported message role: " ++ "tool") ∧
      (∃ params,
        (OpenAIProvider.ChatCompletion sampleUpstream "abc" helloRequest).sdkCalls
            = [.openaiNew "abc" params] ∧
          (OpenAIProvider.ChatCompletion sampleUpstream "abc" helloRequest).value
            = match sampleUpstream.openaiNew "abc" params with
              | .error err => .error (.wrapf "failed to get chat completion: " err)
              | .ok chatCompletion => .ok (OpenAIProvider.toResponse chatCompletion)) :=
  ⟨(C4_unsupported_role_stops_before_sdk_call sampleUpstream "abc" toolRoleRequest).1 1
      { Role := "tool", Content := "42", Name := "" } rfl (by decide)
      (by
        intro j hj m hm
        have hj0 : j = 0 := by omega
        subst hj0
        have : m = { Role := "system", Content := "be brief", Name := "" } := by
          simpa [toolRoleRequest] using hm.symm
        subst this
        decide),
    ((C4_unsupported_role_stops_before_sdk_call sampleUpstream "abc" helloRequest).2
      (by decide)).1⟩

/-! ## Theorems: Anthropic streaming bridge -/

/-- C5, the code at the fixture: for the callbacks start(X, M), delta `He`, delta
`llo`, message delta with reason `stop`, stop, and a consumer that receives two chunks
or more, the bridge sends the two content chunks and nothing else, then closes the
chunk channel: no terminal chunk with `finishReason = "stop"` is sent. In general `OnMessageDelta` sends a chunk only when
the stop reason is the empty string. -/
theorem C5_fixture_yields_no_terminal_chunk (float32 : Float64 → Float32)
    (X M : String) (t0 t1 t2 t3 t4 : Int) (reads : Nat) (s : AnthropicStream) (now : Int)
    (r : String) :
    (anthropicProvider.runStream float32 "abc" claudeRequest (reads + 2)
        (helloEvents X M t0 t1 t2 t3 t4) none).chunksSent
      = [contentChunk X M t1 0 "He", contentChunk X M t2 0 "llo"] ∧
    (anthropicProvider.runStream float32 "abc" claudeRequest (reads + 2)
        (helloEvents X M t0 t1 t2 t3 t4) none).chunkClosed = true ∧
    (anthropicProvider.runStream float32 "abc" claudeRequest (reads + 2)
        (helloEvents X M t0 t1 t2 t3 t4) none).status = .returned ∧
    (s.onEvent now (.OnMessageDelta r)).chunksSent
      = if s.status = .running ∧ r = "" ∧ 0 < s.reads then
          s.chunksSent ++ [finishChunk s.streamID s.streamModel now ""]
        else s.chunksSent := by
  refine ⟨rfl, rfl, rfl, ?_⟩
  unfold AnthropicStream.onEvent
  cases hs : s.status <;> simp
  by_cases hr : r = ""
  · subst hr
    cases hn : s.reads <;> simp [AnthropicStream.sendChunk, hn, finishChunk]
  · simp [hr]

/-- C8, the code at a message delta without stop reason: the bridge sends a chunk
whose content is empty and whose finish reason is the empty string. The part of the
claim on content deltas holds: an empty text sends nothing, a non-empty text sends
that one chunk (to a consumer that still receives). -/
theorem C8_empty_stop_reason_sends_empty_chunk (float32 : Float64 → Float32)
    (t : Int) (s : AnthropicStream) (now : Int) (index : Int) (text : String) :
    (anthropicProvider.runStream float32 "abc" claudeRequest 1
        [(t, .OnMessageDelta "")] none).chunksSent
      = [{ ID := "", Object := "chat.completion.chunk", Created := t, Model := ""
           Choices := [{ Index := 0, Delta := { Role := "assistant", Content := "" }
                         FinishReason := some "" }] }] ∧
    (s.onEvent now (.OnContentBlockDelta index (some ""))).chunksSent = s.chunksSent ∧
    (s.onEvent now (.OnContentBlockDelta index (some text))).chunksSent
      = if s.status = .running ∧ text ≠ "" ∧ 0 < s.reads then
          s.chunksSent ++ [contentChunk s.streamID s.streamModel now index text]
        else s.chunksSent := by
  refine ⟨rfl, ?_, ?_⟩
  · unfold AnthropicStream.onEvent
    cases hs : s.status <;> simp
  · unfold AnthropicStream.onEvent
    cases hs : s.status <;> simp
    by_cases hr : text = ""
    · simp [hr]
    · cases hn : s.reads <;> simp [AnthropicStream.sendChunk, hn, contentChunk, hr]

/-! ## Theorems: usage normalisation -/

theorem wrapInt64_of_inRange (x : Int) (h1 : -2 ^ 63 ≤ x) (h2 : x < 2 ^ 63) :
    wrapInt64 x = x := by
  unfold wrapInt64
  omega

/-- C6, refuted as stated: the OpenAI adapter copies the upstream usage, so for an
upstream answer with usage (1, 2, 5) the canonical total 5 is not 1 + 2. -/
theorem C6_openai_total_can_differ_from_sum :
    ∃ resp, (OpenAIProvider.ChatCompletion sampleUpstream "abc" helloRequest).value
        = .ok resp ∧
      resp.Usage = { PromptTokens := 1, CompletionTokens := 2, TotalTokens := 5 } ∧
      resp.Usage.TotalTokens ≠ resp.Usage.PromptTokens + resp.Usage.CompletionTokens :=
  ⟨OpenAIProvider.toResponse skewedCompletion, rfl, rfl, by decide⟩

/-- C6, amended: the Anthropic adapter sets `totalTokens` to the `int64` sum of
`promptTokens` and `completionTokens`, which is their sum whenever that fits an
`int64`; the OpenAI adapter copies the three upstream numbers unchanged, so its total
is the sum of the two parts exactly when the upstream total is. -/
theorem C6_usage_total (up : Upstream) (apiKey : String) (req : ChatCompletionRequest)
    (resp : ChatCompletionResponse) :
    ((anthropicProvider.ChatCompletion up apiKey req).value = .ok resp →
      resp.Usage.TotalTokens
          = wrapInt64 (resp.Usage.PromptTokens + resp.Usage.CompletionTokens) ∧
        (-2 ^ 63 ≤ resp.Usage.PromptTokens + resp.Usage.CompletionTokens →
          resp.Usage.PromptTokens + resp.Usage.CompletionTokens < 2 ^ 63 →
          resp.Usage.TotalTokens = resp.Usage.PromptTokens + resp.Usage.CompletionTokens)) ∧
    ((OpenAIProvider.ChatCompletion up apiKey req).value = .ok resp →
      ∃ params chatCompletion,
        (OpenAIProvider.ChatCompletion up apiKey req).sdkCalls
            = [.openaiNew apiKey params] ∧
          up.openaiNew apiKey params = .ok chatCompletion ∧
          resp.Usage =
            { PromptTokens := chatCompletion.Usage.PromptTokens
              CompletionTokens := chatCompletion.Usage.CompletionTokens
              TotalTokens := chatCompletion.Usage.TotalTokens } ∧
          (resp.Usage.TotalTokens = resp.Usage.PromptTokens + resp.Usage.CompletionTokens ↔
            chatCompletion.Usage.TotalTokens
              = chatCompletion.Usage.PromptTokens + chatCompletion.Usage.CompletionTokens)) := by
  constructor
  · intro h
    have hu : resp.Usage.TotalTokens
        = wrapInt64 (resp.Usage.PromptTokens + resp.Usage.CompletionTokens) := by
      unfold anthropicProvider.ChatCompletion at h
      split at h
      · simp at h
      · simp only at h
        split at h
        · simp at h
        · simp only [Except.ok.injEq] at h
          subst h
          rfl
    exact ⟨hu, fun h1 h2 => hu.trans (wrapInt64_of_inRange _ h1 h2)⟩
  · intro h
    unfold OpenAIProvider.ChatCompletion at h ⊢
    split at h
    · simp at h
    · rename_i messages hm
      simp only at h ⊢
      split at h
      · simp at h
      · rename_i chatCompletion hc
        simp only [Except.ok.injEq] at h
        subst h
        refine ⟨_, chatCompletion, ?_, hc, rfl, Iff.rfl⟩
        simp only [hc]

/-- C6 amended, at the sample upstream answers (3 + 4 tokens from Anthropic, the
triple (1, 2, 5) from OpenAI). -/
theorem C6_usage_total_witness :
    ((anthropicProvider.toResponse 1700000000 sampleMessagesResponse).Usage.TotalTokens
        = wrapInt64 ((anthropicProvider.toResponse 1700000000
              sampleMessagesResponse).Usage.PromptTokens
            + (anthropicProvider.toResponse 1700000000
              sampleMessagesResponse).Usage.CompletionTokens) ∧
      (-2 ^ 63 ≤ (anthropicProvider.toResponse 1700000000
              sampleMessagesResponse).Usage.PromptTokens
            + (anthropicProvider.toResponse 1700000000
              sampleMessagesResponse).Usage.CompletionTokens →
        (anthropicProvider.toResponse 1700000000 sampleMessagesResponse).Usage.PromptTokens
            + (anthropicProvider.toResponse 1700000000
              sampleMessagesResponse).Usage.CompletionTokens < 2 ^ 63 →
        (anthropicProvider.toResponse 1700000000 sampleMessagesResponse).Usage.TotalTokens
          = (anthropicProvider.toResponse 1700000000
              sampleMessagesResponse).Usage.PromptTokens
            + (anthropicProvider.toResponse 1700000000
              sampleMessagesResponse).Usage.CompletionTokens)) ∧
    (∃ params chatCompletion,
      (OpenAIProvider.ChatCompletion sampleUpstream "abc" helloRequest).sdkCalls
          = [.openaiNew "abc" params] ∧
        sampleUpstream.openaiNew "abc" params = .ok chatCompletion ∧
        (OpenAIProvider.toResponse skewedCompletion).Usage =
          { PromptTokens := chatCompletion.Usage.PromptTokens
            CompletionTokens := chatCompletion.Usage.CompletionTokens
            TotalTokens := chatCompletion.Usage.TotalTokens } ∧
        ((OpenAIProvider.toResponse skewedCompletion).Usage.TotalTokens
            = (OpenAIProvider.toResponse skewedCompletion).Usage.PromptTokens
              + (OpenAIProvider.toResponse skewedCompletion).Usage.CompletionTokens ↔
          chatCompletion.Usage.TotalTokens
            = chatCompletion.Usage.PromptTokens + chatCompletion.Usage.CompletionTokens)) :=
  ⟨(C6_usage_total sampleUpstream "abc" claudeRequest
      (anthropicProvider.toResponse 1700000000 sampleMessagesResponse)).1 rfl,
    (C6_usage_total sampleUpstream "abc" helloRequest
      (OpenAIProvider.toResponse skewedCompletion)).2 rfl⟩

/-! ## Theorems: request validation in the handler -/

/-- C7: `validateChatCompletionRequest` returns an error exactly when the model is
the empty string or the messages list is empty; the model is checked first, so an
empty model always reports `model is required`; and when it returns an error,
`HandleChatCompletion` answers 400 with that error and calls no method of the service. -/
theorem C7_validation_gates_the_service
    (llmService : ChatCompletionRequest → Except GoError ChatCompletionResponse)
    (req : ChatCompletionRequest) :
    (validateChatCompletionRequest req ≠ none ↔ req.Model = "" ∨ req.Messages = []) ∧
    (req.Model = "" →
      validateChatCompletionRequest req = some (.errorf "model is required")) ∧
    (req.Model ≠ "" → req.Messages = [] →
      validateChatCompletionRequest req = some (.errorf "messages cannot be empty")) ∧
    (∀ err, validateChatCompletionRequest req = some err →
      HandleChatCompletion llmService (.ok req)
        = { serviceCalls := []
            response := .errorJSON 400 ("Invalid request: " ++ err.Error) }) := by
  refine ⟨?_, ?_, ?_, ?_⟩
  · unfold validateChatCompletionRequest
    by_cases hm : req.Model = ""
    · simp [hm]
    · by_cases hl : req.Messages = []
      · simp [hm, hl]
      · simp [hm, hl]
  · intro hm
    simp [validateChatCompletionRequest, hm]
  · intro hm hl
    simp [validateChatCompletionRequest, hm, hl]
  · intro err h
    simp [HandleChatCompletion, h]

/-- C7, at a request with an empty model (and, for the second check, at a request
with no messages). -/
theorem C7_validation_gates_the_service_witness :
    validateChatCompletionRequest emptyModelRequest = some (.errorf "model is required") ∧
    validateChatCompletionRequest emptyMessagesRequest
      = some (.errorf "messages cannot be empty") ∧
    HandleChatCompletion (fun _ => .error .ctxErr) (.ok emptyModelRequest)
      = { serviceCalls := []
          response := .errorJSON 400 ("Invalid request: " ++
            (GoError.errorf "model is required").Error) } :=
  ⟨(C7_validation_gates_the_service (fun _ => .error .ctxErr) emptyModelRequest).2.1 rfl,
    (C7_validation_gates_the_service (fun _ => .error .ctxErr) emptyMessagesRequest).2.2.1
      (by decide) rfl,
    (C7_validation_gates_the_service (fun _ => .error .ctxErr) emptyModelRequest).2.2.2
      _ rfl⟩

/-! ## Theorems: OpenAI streaming producer -/

theorem OpenAIStream.sendErr_of_empty (s : OpenAIStream) (err : GoError)
    (hcap : s.errCh.cap = 1) (hbuf : s.errCh.buf = []) :
    s.sendErr err
      = { s with
          pc := .exited
          errCh := { cap := s.errCh.cap, buf := [err], closed := true }
          chunkCh := s.chunkCh.close } := by
  unfold OpenAIStream.sendErr Chan.trySend
  simp [hcap, hbuf, OpenAIStream.exit, Chan.close]

theorem OpenAIStream.errInv_sendErr (s : OpenAIStream) (err : GoError)
    (hcap : s.errCh.cap = 1) (hbuf : s.errCh.buf = []) : (s.sendErr err).errInv := by
  rw [OpenAIStream.sendErr_of_empty s err hcap hbuf]
  simp [OpenAIStream.errInv, hcap]

theorem OpenAIStream.errInv_produce (pickDone : Bool) (s s' : OpenAIStream)
    (hinv : s.errInv) (h : s.produce pickDone = some s') : s'.errInv := by
  obtain ⟨hcap, hpc⟩ := hinv
  unfold OpenAIStream.produce at h
  split at h
  · rename_i hs
    rw [hs] at hpc
    split at h
    · simp only [Option.some.injEq] at h
      subst h
      exact OpenAIStream.errInv_sendErr s _ hcap hpc
    · simp only [Option.some.injEq] at h
      subst h
      exact ⟨hcap, hpc⟩
  · rename_i hs
    rw [hs] at hpc
    split at h
    · simp only [Option.some.injEq] at h
      subst h
      exact ⟨hcap, hpc⟩
    · simp only [Option.some.injEq] at h
      subst h
      exact ⟨hcap, hpc⟩
  · rename_i resp hs
    rw [hs] at hpc
    split at h
    · simp only [Option.some.injEq] at h
      subst h
      exact OpenAIStream.errInv_sendErr s _ hcap hpc
    · simp only [Option.some.injEq] at h
      subst h
      exact ⟨hcap, hpc⟩
  · rename_i chunk hs
    rw [hs] at hpc
    split at h
    · split at h
      · simp only [Option.some.injEq] at h
        subst h
        exact OpenAIStream.errInv_sendErr s _ hcap hpc
      · simp only [Option.some.injEq] at h
        subst h
        exact ⟨hcap, hpc⟩
    · simp only [Option.some.injEq] at h
      subst h
      exact OpenAIStream.errInv_sendErr s _ hcap hpc
    · simp only [Option.some.injEq] at h
      subst h
      exact ⟨hcap, hpc⟩
    · simp at h
  · rename_i hs
    rw [hs] at hpc
    split at h
    · simp only [Option.some.injEq] at h
      subst h
      exact OpenAIStream.errInv_sendErr s _ hcap hpc
    · simp only [Option.some.injEq] at h
      subst h
      simp only [OpenAIStream.errInv, OpenAIStream.exit, Chan.close, hcap, hpc]
      simp
  · simp at h
  · simp at h

theorem OpenAIStream.errInv_step (a : StreamAction) (s s' : OpenAIStream)
    (hinv : s.errInv) (h : s.step a = some s') : s'.errInv := by
  cases a with
  | cancel =>
    simp only [OpenAIStream.step, Option.some.injEq] at h
    subst h
    exact hinv
  | receive =>
    simp only [OpenAIStream.step] at h
    split at h
    · simp at h
    · simp only [Option.some.injEq] at h
      subst h
      exact hinv
  | produce pickDone => exact OpenAIStream.errInv_produce pickDone s s' hinv h

theorem OpenAIStream.errInv_exec (acts : List StreamAction) :
    ∀ s : OpenAIStream, s.errInv → (s.exec acts).errInv := by
  induction acts with
  | nil => intro s h; exact h
  | cons a rest ih =>
    intro s h
    unfold OpenAIStream.exec
    cases hstep : s.step a with
    | none => exact ih s h
    | some s' => exact ih s' (OpenAIStream.errInv_step a s s' h hstep)

theorem OpenAIStream.errInv_init (apiKey : String) (req : ChatCompletionRequest)
    (upstream : List openai.ChatCompletionChunk) (upstreamErr : Option GoError) :
    (OpenAIProvider.ChatCompletionStream apiKey req upstream upstreamErr).errInv := by
  simp [OpenAIStream.errInv, OpenAIProvider.ChatCompletionStream, Chan.make]

theorem OpenAIStream.exec_exited (acts : List StreamAction) :
    ∀ s : OpenAIStream, s.pc = .exited →
      (s.exec acts).pc = .exited ∧ (s.exec acts).errCh = s.errCh ∧
        (s.exec acts).chunksSent = s.chunksSent ∧ (s.exec acts).pulls = s.pulls ∧
        (s.exec acts).upstream = s.upstream := by
  induction acts with
  | nil => intro s h; exact ⟨h, rfl, rfl, rfl, rfl⟩
  | cons a rest ih =>
    intro s h
    unfold OpenAIStream.exec
    cases a with
    | cancel =>
      simp only [OpenAIStream.step]
      exact ih { s with cancelled := true } h
    | receive =>
      cases hb : s.chunkCh.buf with
      | nil =>
        simp only [OpenAIStream.step, hb]
        exact ih s h
      | cons c rest' =>
        simp only [OpenAIStream.step, hb]
        exact ih { s with chunkCh := { s.chunkCh with buf := rest' } } h
    | produce pickDone =>
      have : s.produce pickDone = none := by
        unfold OpenAIStream.produce
        rw [h]
      simp only [OpenAIStream.step, this]
      exact ih s h

theorem OpenAIStream.exec_reachable (acts : List StreamAction) :
    ∀ s : OpenAIStream, Relation.ReflTransGen OpenAIStream.Step s (s.exec acts) := by
  induction acts with
  | nil => intro s; exact Relation.ReflTransGen.refl
  | cons a rest ih =>
    intro s
    unfold OpenAIStream.exec
    cases hstep : s.step a with
    | none => exact ih s
    | some s' => exact Relation.ReflTransGen.head ⟨a, hstep⟩ (ih s')

theorem OpenAIStream.reachable_iff_exec (s s' : OpenAIStream) :
    Relation.ReflTransGen OpenAIStream.Step s s' ↔ ∃ acts, s.exec acts = s' := by
  constructor
  · intro h
    induction h using Relation.ReflTransGen.head_induction_on with
    | refl => exact ⟨[], rfl⟩
    | head hstep _ ih =>
      obtain ⟨a, ha⟩ := hstep
      obtain ⟨acts, hacts⟩ := ih
      refine ⟨a :: acts, ?_⟩
      simp only [OpenAIStream.exec, ha]
      exact hacts
  · rintro ⟨acts, rfl⟩
    exact OpenAIStream.exec_reachable acts s

/-- C9, refuted as stated: the producer has opened the stream and pulled one chunk,
then the context is cancelled; at the first `select` it observes the cancellation and
its move puts `ctx.Err()` on the error channel, which was empty before. The same
happens when the cancellation is observed at the second `select`. -/
theorem C9_cancel_observed_sends_ctx_error :
    ((OpenAIProvider.ChatCompletionStream "abc" helloRequest [sampleUpstreamChunk]
        none).exec cancelAfterFirstPull).observesCancel false = true ∧
    ((OpenAIProvider.ChatCompletionStream "abc" helloRequest [sampleUpstreamChunk]
        none).exec cancelAfterFirstPull).errCh.buf = [] ∧
    ((OpenAIProvider.ChatCompletionStream "abc" helloRequest [sampleUpstreamChunk]
        none).exec (cancelAfterFirstPull ++ [.produce false])).errCh.buf = [.ctxErr] ∧
    ((OpenAIProvider.ChatCompletionStream "abc" helloRequest [sampleUpstreamChunk]
        none).exec [.produce false, .produce false, .produce false, .cancel]).observesCancel
        true = true ∧
    ((OpenAIProvider.ChatCompletionStream "abc" helloRequest [sampleUpstreamChunk]
        none).exec [.produce false, .produce false, .produce false, .cancel,
          .produce true]).errCh.buf = [.ctxErr] := by
  refine ⟨rfl, rfl, rfl, rfl, rfl⟩

/-- C9, amended: in every state reached by a streaming call, when the producer
observes at either `select` that the context is cancelled, its move sends exactly one
error, `ctx.Err()`, on the so far empty error channel and returns, closing both
channels; from then on, whatever happens, no chunk is sent, nothing more is pulled
from upstream, and nothing more is sent on the error channel. -/
theorem C9_cancel_observed_then_one_error_and_exit (apiKey : String)
    (req : ChatCompletionRequest) (upstream : List openai.ChatCompletionChunk)
    (upstreamErr : Option GoError) (before after : List StreamAction) (pickDone : Bool)
    (hobs : ((OpenAIProvider.ChatCompletionStream apiKey req upstream upstreamErr).exec
      before).observesCancel pickDone = true) :
    ((OpenAIProvider.ChatCompletionStream apiKey req upstream upstreamErr).exec
        before).errCh.buf = [] ∧
    ∃ s', ((OpenAIProvider.ChatCompletionStream apiKey req upstream upstreamErr).exec
          before).produce pickDone = some s' ∧
      s'.pc = .exited ∧ s'.errCh.buf = [.ctxErr] ∧
      s'.errCh.closed = true ∧ s'.chunkCh.closed = true ∧
      (s'.exec after).pc = .exited ∧
      (s'.exec after).errCh.buf = [.ctxErr] ∧
      (s'.exec after).chunksSent
        = ((OpenAIProvider.ChatCompletionStream apiKey req upstream upstreamErr).exec
            before).chunksSent ∧
      (s'.exec after).pulls
        = ((OpenAIProvider.ChatCompletionStream apiKey req upstream upstreamErr).exec
            before).pulls ∧
      (s'.exec after).upstream
        = ((OpenAIProvider.ChatCompletionStream apiKey req upstream upstreamErr).exec
            before).upstream := by
  have hinv := OpenAIStream.errInv_exec before _
    (OpenAIStream.errInv_init apiKey req upstream upstreamErr)
  generalize (OpenAIProvider.ChatCompletionStream apiKey req upstream upstreamErr).exec
    before = s at hobs hinv ⊢
  obtain ⟨hcap, hpc⟩ := hinv
  unfold OpenAIStream.observesCancel at hobs
  simp only [Bool.and_eq_true] at hobs
  obtain ⟨hc, hsel⟩ := hobs
  have key : s.errCh.buf = [] ∧ s.produce pickDone = some (s.sendErr .ctxErr) := by
    cases hs : s.pc with
    | check resp =>
      rw [hs] at hpc
      refine ⟨hpc, ?_⟩
      unfold OpenAIStream.produce
      simp [hs, hc]
    | deliver chunk =>
      rw [hs] at hpc hsel
      refine ⟨hpc, ?_⟩
      simp only [Bool.or_eq_true, Option.isNone_iff_eq_none] at hsel
      unfold OpenAIStream.produce
      simp only [hs, hc]
      cases hts : s.chunkCh.trySend chunk with
      | none => rfl
      | some ch =>
        rcases hsel with hp | hn
        · simp [hp]
        · rw [hts] at hn
          simp at hn
    | start => rw [hs] at hsel; simp at hsel
    | next => rw [hs] at hsel; simp at hsel
    | afterLoop => rw [hs] at hsel; simp at hsel
    | blockedOnErrCh e => rw [hs] at hsel; simp at hsel
    | exited => rw [hs] at hsel; simp at hsel
  obtain ⟨hbuf, hprod⟩ := key
  refine ⟨hbuf, s.sendErr .ctxErr, hprod, ?_⟩
  have hsend := OpenAIStream.sendErr_of_empty s .ctxErr hcap hbuf
  have hex := OpenAIStream.exec_exited after (s.sendErr .ctxErr) (by rw [hsend])
  obtain ⟨h1, h2, h3, h4, h5⟩ := hex
  refine ⟨by rw [hsend], by rw [hsend], by rw [hsend], by rw [hsend]; rfl, h1, ?_, ?_, ?_, ?_⟩
  · rw [h2, hsend]
  · rw [h3, hsend]
  · rw [h4, hsend]
  · rw [h5, hsend]

/-- C9 amended, at the schedule that cancels after the first pull, followed by more
producer moves, a receive and a second cancellation. -/
theorem C9_cancel_observed_then_one_error_and_exit_witness :
    ((OpenAIProvider.ChatCompletionStream "abc" helloRequest [sampleUpstreamChunk]
        none).exec cancelAfterFirstPull).errCh.buf = [] ∧
    ∃ s', ((OpenAIProvider.ChatCompletionStream "abc" helloRequest [sampleUpstreamChunk]
          none).exec cancelAfterFirstPull).produce false = some s' ∧
      s'.pc = .exited ∧ s'.errCh.buf = [.ctxErr] ∧
      s'.errCh.closed = true ∧ s'.chunkCh.closed = true ∧
      (s'.exec [.produce true, .receive, .cancel, .produce false]).pc = .exited ∧
      (s'.exec [.produce true, .receive, .cancel, .produce false]).errCh.buf = [.ctxErr] ∧
      (s'.exec [.produce true, .receive, .cancel, .produce false]).chunksSent
        = ((OpenAIProvider.ChatCompletionStream "abc" helloRequest [sampleUpstreamChunk]
            none).exec cancelAfterFirstPull).chunksSent ∧
      (s'.exec [.produce true, .receive, .cancel, .produce false]).pulls
        = ((OpenAIProvider.ChatCompletionStream "abc" helloRequest [sampleUpstreamChunk]
            none).exec cancelAfterFirstPull).pulls ∧
      (s'.exec [.produce true, .receive, .cancel, .produce false]).upstream
        = ((OpenAIProvider.ChatCompletionStream "abc" helloRequest [sampleUpstreamChunk]
            none).exec cancelAfterFirstPull).upstream :=
  C9_cancel_observed_then_one_error_and_exit "abc" helloRequest [sampleUpstreamChunk] none
    cancelAfterFirstPull [.produce true, .receive, .cancel, .produce false] false rfl

/-! ## Theorems: the error channel never blocks -/

theorem AnthropicStream.errInv_offerErr (s : AnthropicStream) (err : GoError)
    (h : s.errInv) : (s.offerErr err).errInv := by
  obtain ⟨hcap, hlen, hst⟩ := h
  unfold AnthropicStream.offerErr Chan.trySend
  by_cases hb : s.errorChan.buf.length < s.errorChan.cap
  · simp only [hb, if_true]
    refine ⟨hcap, ?_, hst⟩
    simp only [List.length_append, List.length_singleton]
    omega
  · simp only [hb, if_false]
    exact ⟨hcap, hlen, hst⟩

theorem AnthropicStream.errInv_sendChunk (s : AnthropicStream) (chunk : ChatCompletionChunk)
    (h : s.errInv) : (s.sendChunk chunk).errInv := by
  obtain ⟨hcap, hlen, hst⟩ := h
  unfold AnthropicStream.sendChunk
  cases s.reads with
  | zero => exact ⟨hcap, hlen, by simp⟩
  | succ n => exact ⟨hcap, hlen, hst⟩

theorem AnthropicStream.errInv_onEvent (now : Int) (s : AnthropicStream)
    (ev : anthropic.StreamEvent) (h : s.errInv) : (s.onEvent now ev).errInv := by
  unfold AnthropicStream.onEvent
  cases hs : s.status with
  | running =>
    cases ev with
    | OnMessageStart id model => exact ⟨h.1, h.2.1, by simp⟩
    | OnContentBlockDelta index text =>
      cases text with
      | none => exact ⟨h.1, h.2.1, by simp⟩
      | some text =>
        simp only
        split
        · exact AnthropicStream.errInv_sendChunk s _ h
        · exact h
    | OnMessageDelta stopReason =>
      simp only
      split
      · exact AnthropicStream.errInv_sendChunk s _ h
      · exact h
    | OnMessageStop => exact h
    | OnError error =>
      cases error with
      | none => exact h
      | some e => exact AnthropicStream.errInv_offerErr s _ h
  | blockedOnChunkSend => exact h
  | blockedOnErrorSend => exact h
  | panicked => exact h
  | returned => exact h

theorem AnthropicStream.errInv_onEvents (events : List (Int × anthropic.StreamEvent)) :
    ∀ s : AnthropicStream, s.errInv → (s.onEvents events).errInv := by
  induction events with
  | nil => intro s h; exact h
  | cons e rest ih =>
    intro s h
    obtain ⟨now, ev⟩ := e
    exact ih _ (AnthropicStream.errInv_onEvent now s ev h)

theorem AnthropicStream.errInv_onReturn (s : AnthropicStream) (err : Option GoError)
    (h : s.errInv) : (s.onReturn err).errInv := by
  unfold AnthropicStream.onReturn
  cases hs : s.status with
  | running =>
    cases err with
    | none => exact ⟨h.1, h.2.1, by simp⟩
    | some e =>
      have h' := AnthropicStream.errInv_offerErr s
        (.wrapf "failed to complete messages stream: " e) h
      exact ⟨h'.1, h'.2.1, by simp⟩
  | blockedOnChunkSend => exact h
  | blockedOnErrorSend => exact h
  | panicked => exact h
  | returned => exact h

theorem AnthropicStream.errInv_atStart (float32 : Float64 → Float32) (apiKey : String)
    (req : ChatCompletionRequest) (reads : Nat) :
    (anthropicProvider.ChatCompletionStream float32 apiKey req reads).errInv := by
  unfold anthropicProvider.ChatCompletionStream
  cases anthropicProvider.messagesLoop [] "" req.Messages with
  | error err => simp [AnthropicStream.errInv, Chan.trySend, Chan.make]
  | ok out =>
    obtain ⟨anthropicMessages, systemMessage⟩ := out
    simp [AnthropicStream.errInv, Chan.make]

theorem AnthropicStream.offerErr_of_full (s : AnthropicStream) (err : GoError)
    (hcap : s.errorChan.cap = 1) (hfull : s.errorChan.buf.length = 1) :
    s.offerErr err = s := by
  unfold AnthropicStream.offerErr Chan.trySend
  simp [hcap, hfull]

/-- C10: with a consumer that never receives from the error channel, in every state
reached by a streaming call of the OpenAI adapter the producer is not blocked in an
error send and the error channel holds at most one error (so every path sent at most
one); in a streaming call of the Anthropic adapter, after any callbacks and after the
return of `CreateMessagesStream`, no code is blocked in an error send (the
unsupported-role send went into the fresh buffer) and the error channel holds at most
one error; once it holds one, an `OnError` callback and a `CreateMessagesStream`
failure leave it as it is: their error is dropped and the goroutine goes on. -/
theorem C10_error_channel_sends_never_block (apiKey : String) (req : ChatCompletionRequest)
    (upstream : List openai.ChatCompletionChunk) (upstreamErr : Option GoError)
    (sched : List StreamAction) (float32 : Float64 → Float32) (reads : Nat)
    (events : List (Int × anthropic.StreamEvent)) (err : Option GoError) (now : Int)
    (e : Option anthropic.APIError) :
    ((∀ pending, ((OpenAIProvider.ChatCompletionStream apiKey req upstream upstreamErr).exec
          sched).pc ≠ .blockedOnErrCh pending) ∧
      ((OpenAIProvider.ChatCompletionStream apiKey req upstream upstreamErr).exec
          sched).errCh.buf.length ≤ 1) ∧
    (((anthropicProvider.ChatCompletionStream float32 apiKey req reads).onEvents
          events).status ≠ .blockedOnErrorSend ∧
      ((anthropicProvider.ChatCompletionStream float32 apiKey req reads).onEvents
          events).errorChan.buf.length ≤ 1 ∧
      (anthropicProvider.runStream float32 apiKey req reads events err).status
        ≠ .blockedOnErrorSend ∧
      (anthropicProvider.runStream float32 apiKey req reads events err).errorChan.buf.length
        ≤ 1 ∧
      (((anthropicProvider.ChatCompletionStream float32 apiKey req reads).onEvents
            events).errorChan.buf.length = 1 →
        (((anthropicProvider.ChatCompletionStream float32 apiKey req reads).onEvents
              events).onEvent now (.OnError e))
          = (anthropicProvider.ChatCompletionStream float32 apiKey req reads).onEvents
              events ∧
        (anthropicProvider.runStream float32 apiKey req reads events err).errorChan
          = ((anthropicProvider.ChatCompletionStream float32 apiKey req reads).onEvents
              events).errorChan)) := by
  constructor
  · have hinv := OpenAIStream.errInv_exec sched _
      (OpenAIStream.errInv_init apiKey req upstream upstreamErr)
    generalize (OpenAIProvider.ChatCompletionStream apiKey req upstream upstreamErr).exec
      sched = s at hinv ⊢
    obtain ⟨hcap, hpc⟩ := hinv
    cases hs : s.pc <;> rw [hs] at hpc <;> simp_all
  · have hev := AnthropicStream.errInv_onEvents events _
      (AnthropicStream.errInv_atStart float32 apiKey req reads)
    have hret := AnthropicStream.errInv_onReturn _ err hev
    unfold anthropicProvider.runStream
    generalize (anthropicProvider.ChatCompletionStream float32 apiKey req reads).onEvents
      events = s at hev hret ⊢
    refine ⟨hev.2.2, hev.2.1, hret.2.2, hret.2.1, ?_⟩
    intro hfull
    constructor
    · unfold AnthropicStream.onEvent
      cases hs : s.status with
      | running =>
        cases e with
        | none => rfl
        | some e' => exact AnthropicStream.offerErr_of_full s _ hev.1 hfull
      | blockedOnChunkSend => rfl
      | blockedOnErrorSend => rfl
      | panicked => rfl
      | returned => rfl
    · unfold AnthropicStream.onReturn
      cases hs : s.status with
      | running =>
        cases err with
        | none => rfl
        | some e' =>
          simp only
          rw [AnthropicStream.offerErr_of_full s _ hev.1 hfull]
      | blockedOnChunkSend => rfl
      | blockedOnErrorSend => rfl
      | panicked => rfl
      | returned => rfl

/-- C10, at an Anthropic stream with two error callbacks in a row, ended by a failure
of `CreateMessagesStream`: the second and the third error are dropped. -/
theorem C10_error_channel_sends_never_block_witness :
    ((anthropicProvider.ChatCompletionStream (fun x => { bits := x.bits }) "abc"
          claudeRequest 0).onEvents twoErrorEvents).errorChan.buf.length = 1 ∧
      (((anthropicProvider.ChatCompletionStream (fun x => { bits := x.bits }) "abc"
            claudeRequest 0).onEvents twoErrorEvents).onEvent 1700000002
          (.OnError (some { Type_ := "api_error", Message := "third" })))
        = (anthropicProvider.ChatCompletionStream (fun x => { bits := x.bits }) "abc"
            claudeRequest 0).onEvents twoErrorEvents ∧
      (anthropicProvider.runStream (fun x => { bits := x.bits }) "abc" claudeRequest 0
          twoErrorEvents (some (.sdk "stream failed"))).errorChan
        = ((anthropicProvider.ChatCompletionStream (fun x => { bits := x.bits }) "abc"
            claudeRequest 0).onEvents twoErrorEvents).errorChan :=
  ⟨rfl,
    (C10_error_channel_sends_never_block "abc" claudeRequest [] none []
      (fun x => { bits := x.bits }) 0 twoErrorEvents (some (.sdk "stream failed"))
      1700000002 (some { Type_ := "api_error", Message := "third" })).2.2.2.2.2 rfl⟩

/-! ## Theorems: native request parameters of the OpenAI adapter -/

theorem openai_messagesLoop_errHead (h1 h2 : String) :
    ∀ (msgs : List openAIMessage) (acc : List openai.ChatCompletionMessageParamUnion),
      (OpenAIProvider.messagesLoop h1 acc msgs).toOption
        = (OpenAIProvider.messagesLoop h2 acc msgs).toOption
  | [], acc => rfl
  | m0 :: rest, acc => by
    unfold OpenAIProvider.messagesLoop
    by_cases hu : m0.Role = "user"
    · rw [if_pos hu, if_pos hu]
      exact openai_messagesLoop_errHead h1 h2 rest _
    · by_cases ha : m0.Role = "assistant"
      · rw [if_neg hu, if_pos ha, if_neg hu, if_pos ha]
        exact openai_messagesLoop_errHead h1 h2 rest _
      · by_cases hs : m0.Role = "system"
        · rw [if_neg hu, if_neg ha, if_pos hs, if_neg hu, if_neg ha, if_pos hs]
          exact openai_messagesLoop_errHead h1 h2 rest _
        · rw [if_neg hu, if_neg ha, if_neg hs, if_neg hu, if_neg ha, if_neg hs]
          rfl

/-- C11, the code at a request that sets `temperature`, `top_p` and `max_tokens`:
the blocking `ChatCompletion` hands the SDK parameters with none of the three set,
`ChatCompletionStream` hands it parameters with all three set. In general the
blocking call sends the streaming parameters with the three optional fields cleared;
model and converted messages are the same in both methods. -/
theorem C11_blocking_params_drop_optional_fields (up : Upstream) (apiKey : String)
    (req : ChatCompletionRequest) (upstream : List openai.ChatCompletionChunk)
    (upstreamErr : Option GoError) (pickDone : Bool) :
    (OpenAIProvider.ChatCompletion sampleUpstream "abc" tunedRequest).sdkCalls
      = [.openaiNew "abc"
          { Messages := [.UserMessage "hi"], Model := "gpt-4o"
            Temperature := none, TopP := none, MaxTokens := none }] ∧
    ((OpenAIProvider.ChatCompletionStream "abc" tunedRequest [] none).exec
        [.produce false]).sdkCalls
      = [.openaiNewStreaming "abc"
          { Messages := [.UserMessage "hi"], Model := "gpt-4o"
            Temperature := some { bits := 0x3FE6666666666666 }
            TopP := some { bits := 0x3FECCCCCCCCCCCCD }
            MaxTokens := some 16 }] ∧
    (OpenAIProvider.ChatCompletion up apiKey req).sdkCalls
      = (match OpenAIProvider.messagesLoop "unsupported message role: " [] req.Messages with
        | .error _ => []
        | .ok messages =>
          [.openaiNew apiKey
            { OpenAIProvider.streamParams req messages with
              Temperature := none, TopP := none, MaxTokens := none }]) ∧
    ((OpenAIProvider.ChatCompletionStream apiKey req upstream upstreamErr).exec
        [.produce pickDone]).sdkCalls
      = (match OpenAIProvider.messagesLoop "unsupported role: " [] req.Messages with
        | .error _ => []
        | .ok messages =>
          [.openaiNewStreaming apiKey (OpenAIProvider.streamParams req messages)]) ∧
    (OpenAIProvider.messagesLoop "unsupported message role: " [] req.Messages).toOption
      = (OpenAIProvider.messagesLoop "unsupported role: " [] req.Messages).toOption := by
  refine ⟨rfl, rfl, ?_, ?_, openai_messagesLoop_errHead _ _ _ _⟩
  · unfold OpenAIProvider.ChatCompletion
    cases OpenAIProvider.messagesLoop "unsupported message role: " [] req.Messages with
    | error err => rfl
    | ok messages =>
      simp only [OpenAIProvider.streamParams]
      split <;> rfl
  · simp only [OpenAIStream.exec, OpenAIStream.step, OpenAIStream.produce,
      OpenAIProvider.ChatCompletionStream]
    cases OpenAIProvider.messagesLoop "unsupported role: " [] req.Messages with
    | error err =>
      simp [OpenAIStream.sendErr, Chan.trySend, Chan.make, OpenAIStream.exit, Chan.close]
    | ok messages => simp

/-! ## Theorems: request conversion of the Anthropic adapter -/

theorem specSystemOr_cons_system (dflt : String) (m0 : openAIMessage)
    (rest : List openAIMessage) (hs : m0.Role = "system") :
    specSystemOr dflt (m0 :: rest) = specSystemOr m0.Content rest := by
  unfold specSystemOr
  simp only [List.filter_cons, hs, decide_True, if_true, List.getLast?_cons]
  cases (List.filter (fun m => decide (m.Role = "system")) rest).getLast? <;> rfl

theorem specSystemOr_cons_other (dflt : String) (m0 : openAIMessage)
    (rest : List openAIMessage) (hs : m0.Role ≠ "system") :
    specSystemOr dflt (m0 :: rest) = specSystemOr dflt rest := by
  unfold specSystemOr
  simp [List.filter_cons, hs]

theorem anthropic_messagesLoop_eq_spec :
    ∀ (msgs : List openAIMessage) (acc : List anthropic.Message) (sys : String),
      (∀ m ∈ msgs, supportedRole m.Role = true) →
      anthropicProvider.messagesLoop acc sys msgs
        = .ok (acc ++ specNativeMessages msgs, specSystemOr sys msgs)
  | [], acc, sys, _ => by
    simp [anthropicProvider.messagesLoop, specNativeMessages, specSystemOr]
  | m0 :: rest, acc, sys, h => by
    have h0 : supportedRole m0.Role = true := h m0 (List.mem_cons_self _ _)
    have hrest : ∀ m ∈ rest, supportedRole m.Role = true :=
      fun m hm => h m (List.mem_cons_of_mem _ hm)
    unfold anthropicProvider.messagesLoop
    by_cases hu : m0.Role = "user"
    · rw [if_pos hu, anthropic_messagesLoop_eq_spec rest _ _ hrest,
        specSystemOr_cons_other sys m0 rest (by rw [hu]; decide)]
      simp [specNativeMessages, List.filter_cons, hu]
    · by_cases ha : m0.Role = "assistant"
      · rw [if_neg hu, if_pos ha, anthropic_messagesLoop_eq_spec rest _ _ hrest,
          specSystemOr_cons_other sys m0 rest (by rw [ha]; decide)]
        simp [specNativeMessages, List.filter_cons, ha]
      · by_cases hs : m0.Role = "system"
        · rw [if_neg hu, if_neg ha, if_pos hs, anthropic_messagesLoop_eq_spec rest _ _ hrest,
            specSystemOr_cons_system sys m0 rest hs]
          simp [specNativeMessages, List.filter_cons, hu, ha]
        · exfalso
          rcases (supportedRole_true_iff _).1 h0 with h' | h' | h'
          · exact hu h'
          · exact ha h'
          · exact hs h'

theorem specNativeMessages_length (msgs : List openAIMessage)
    (h : ∀ m ∈ msgs, supportedRole m.Role = true) :
    (specNativeMessages msgs).length
      = (msgs.filter fun m => decide (m.Role ≠ "system")).length := by
  unfold specNativeMessages
  rw [List.length_map]
  congr 1
  apply List.filter_congr
  intro m hm
  rcases (supportedRole_true_iff _).1 (h m hm) with h' | h' | h' <;> simp [h']

/-- C12: for a request whose roles are all supported, the role loop shared by the
two Anthropic methods yields as native messages the user and assistant messages in
their original order with their content (as many as there are non-system messages)
and as system text the content of the last system message, or the empty string when
there is none; the request handed to `CreateMessages` carries them, with `MaxTokens`
the request's `max_tokens` when present and 1024 when absent, and the request handed
to `CreateMessagesStream` is the same one with `Stream` set. -/
theorem C12_anthropic_request_conversion (up : Upstream) (apiKey : String)
    (req : ChatCompletionRequest) (reads : Nat)
    (hall : ∀ m ∈ req.Messages, supportedRole m.Role = true) :
    anthropicProvider.messagesLoop [] "" req.Messages
      = .ok (specNativeMessages req.Messages, specSystem req.Messages) ∧
    (specNativeMessages req.Messages).length
      = (req.Messages.filter fun m => decide (m.Role ≠ "system")).length ∧
    (anthropicProvider.ChatCompletion up apiKey req).sdkCalls
      = [.anthropicCreateMessages apiKey
          { Model := req.Model
            Messages := specNativeMessages req.Messages
            MaxTokens := (match req.MaxTokens with
              | some n => n
              | none => 1024)
            System := specSystem req.Messages
            StopSequences := req.Stop
            Stream := false
            Temperature := req.Temperature.map up.float32
            TopP := req.TopP.map up.float32 }] ∧
    (anthropicProvider.ChatCompletionStream up.float32 apiKey req reads).sdkCalls
      = [.anthropicCreateMessagesStream apiKey
          { Model := req.Model
            Messages := specNativeMessages req.Messages
            MaxTokens := (match req.MaxTokens with
              | some n => n
              | none => 1024)
            System := specSystem req.Messages
            StopSequences := req.Stop
            Stream := true
            Temperature := req.Temperature.map up.float32
            TopP := req.TopP.map up.float32 }] := by
  have hloop : anthropicProvider.messagesLoop [] "" req.Messages
      = .ok (specNativeMessages req.Messages, specSystem req.Messages) := by
    rw [anthropic_messagesLoop_eq_spec req.Messages [] "" hall]
    simp [specSystem]
  refine ⟨hloop, specNativeMessages_length req.Messages hall, ?_, ?_⟩
  · unfold anthropicProvider.ChatCompletion
    simp only [hloop, anthropicProvider.messagesRequest]
    split <;> rfl
  · unfold anthropicProvider.ChatCompletionStream
    simp only [hloop, anthropicProvider.messagesRequest]

/-- C12, at a request with the messages system, user, system, assistant, user and no
`max_tokens`: three native messages, the second system text, 1024 tokens. -/
theorem C12_anthropic_request_conversion_witness :
    anthropicProvider.messagesLoop [] "" twoSystemsRequest.Messages
      = .ok ([.NewUserTextMessage "hi", .NewAssistantTextMessage "hello",
              .NewUserTextMessage "bye"], "be kind") ∧
    (anthropicProvider.ChatCompletion sampleUpstream "abc" twoSystemsRequest).sdkCalls
      = [.anthropicCreateMessages "abc"
          { Model := "claude-3-opus"
            Messages := [.NewUserTextMessage "hi", .NewAssistantTextMessage "hello",
              .NewUserTextMessage "bye"]
            MaxTokens := 1024
            System := "be kind"
            StopSequences := []
            Stream := false
            Temperature := none
            TopP := none }] :=
  ⟨(C12_anthropic_request_conversion sampleUpstream "abc" twoSystemsRequest 0
      (by decide)).1,
    (C12_anthropic_request_conversion sampleUpstream "abc" twoSystemsRequest 0
      (by decide)).2.2.1⟩

end LLMRouter
